import Mathlib

/-!
Verification of `skills/fix-app-bugs/scripts/terminal_probe_pipeline.py`.

This file gives a shallow embedding of the session-resolution state machine
and the scenario-execution pipeline of `terminal_probe_pipeline.py`.
Pure helpers are translated directly; HTTP calls to the Core, the CDP
endpoints and the external image tool are modelled as oracles (explicit
inputs), so every function of the pipeline becomes a total function of its
inputs and the oracle responses.  Strings are handled at the `List Char`
level so that every definition is executable by the kernel.

Dynamic `isinstance` checks of the Python source that are discharged by the
typed embedding (for example `isinstance(name, str)` on a field that the
model types as `String`) are noted where they occur.
-/

namespace TerminalProbe

/-! ## Python string helpers (`str.lower`, `str.strip`, substring search)

These mirror the CPython behaviour on the ASCII fragment the pipeline
manipulates. -/

/-- ASCII lower-casing of a character, as `str.lower` acts on ASCII text. -/
def pyLowerChar (c : Char) : Char :=
  if 'A' ≤ c ∧ c ≤ 'Z' then Char.ofNat (c.toNat + 32) else c

/-- ASCII lower-casing of a string. -/
def pyLower (s : String) : String :=
  String.mk (s.data.map pyLowerChar)

/-- ASCII upper-casing of a character, as `str.upper` acts on ASCII text. -/
def pyUpperChar (c : Char) : Char :=
  if 'a' ≤ c ∧ c ≤ 'z' then Char.ofNat (c.toNat - 32) else c

/-- ASCII upper-casing of a string. -/
def pyUpper (s : String) : String :=
  String.mk (s.data.map pyUpperChar)

/-- Python `str.isspace` on the ASCII whitespace characters. -/
def pyIsSpace (c : Char) : Bool :=
  c = ' ' ∨ c = '\t' ∨ c = '\n' ∨ c = '\x0d' ∨ c = '\x0b' ∨ c = '\x0c'

/-- Python `str.strip()`: drop whitespace from both ends. -/
def pyStrip (s : String) : String :=
  String.mk (((s.data.dropWhile pyIsSpace).reverse.dropWhile pyIsSpace).reverse)

/-- `needle.isPrefixOf haystack` on character lists. -/
def listIsPrefix : List Char → List Char → Bool
  | [], _ => true
  | _ :: _, [] => false
  | a :: as, b :: bs => a = b && listIsPrefix as bs

/-- Python `needle in haystack` substring containment on character lists. -/
def listContainsSub (needle : List Char) : List Char → Bool
  | [] => listIsPrefix needle []
  | c :: rest => listIsPrefix needle (c :: rest) || listContainsSub needle rest

/-- Python substring containment `needle in haystack` for strings. -/
def pyContains (haystack needle : String) : Bool :=
  listContainsSub needle.data haystack.data

/-! ## URL parsing (`parse_url_parts`, faithful to `urllib.parse.urlparse`
for the `scheme`, `hostname`, `port` and `path` attributes) -/

/-- The result of `parse_url_parts`: scheme, hostname, effective port,
origin string and path. -/
structure UrlParts where
  scheme : String
  hostname : String
  port : Nat
  path : String
  deriving Repr, DecidableEq

/-- The origin string `f"{scheme}://{hostname}:{port}"` built by
`parse_url_parts`. -/
def UrlParts.origin (u : UrlParts) : String :=
  u.scheme ++ "://" ++ u.hostname ++ ":" ++ toString u.port

/-- Characters allowed after the first character of a URL scheme
(`urllib.parse.scheme_chars`). -/
def isSchemeChar (c : Char) : Bool :=
  c.isAlpha || c.isDigit || c = '+' || c = '-' || c = '.'

/-- WHATWG C0-control-or-space class stripped from both ends of a URL by
`urlsplit`. -/
def isC0OrSpace (c : Char) : Bool :=
  c.toNat ≤ 32

/-- Split `scheme:` off the front of a URL, as `urlsplit` does: the text up
to the first `:` must start with a letter and continue with scheme
characters; otherwise there is no scheme.  Returns the (lower-cased) scheme
and the remainder. -/
def splitSchemeAux : List Char → List Char → Option (List Char × List Char)
  | _, [] => none
  | acc, c :: rest =>
      if c = ':' then some (acc.reverse, rest)
      else if isSchemeChar c then splitSchemeAux (c :: acc) rest
      else none

/-- Scheme splitting entry point: the first character must be a letter. -/
def splitScheme (l : List Char) : Option (List Char) × List Char :=
  match l with
  | [] => (none, [])
  | c :: rest =>
      if c.isAlpha then
        match splitSchemeAux [c] rest with
        | some (sch, remainder) => (some (sch.map pyLowerChar), remainder)
        | none => (none, l)
      else (none, l)

/-- Character ending the netloc section of a URL. -/
def isNetlocEnd (c : Char) : Bool :=
  c = '/' || c = '?' || c = '#'

/-- The `urlsplit` decomposition the pipeline relies on: optional scheme,
optional netloc and the path (query and fragment are split off and
discarded).  Returns `none` where `urlsplit` raises `ValueError`
(mismatched IPv6 brackets in the netloc). -/
def urlsplitParts (raw : String) : Option (Option (List Char) × List Char × List Char) :=
  let cleaned :=
    (raw.data.dropWhile isC0OrSpace).filter
      (fun c => ¬ (c = '\t' ∨ c = '\n' ∨ c = '\x0d'))
  let (scheme, rest) := splitScheme cleaned
  let (netloc, rest) :=
    match rest with
    | '/' :: '/' :: tail => (tail.takeWhile (fun c => ¬ isNetlocEnd c),
        tail.dropWhile (fun c => ¬ isNetlocEnd c))
    | other => ([], other)
  if (netloc.contains '[' && ¬ netloc.contains ']')
      || (netloc.contains ']' && ¬ netloc.contains '[') then
    none
  else
    let rest := rest.takeWhile (fun c => c ≠ '#')
    let path := rest.takeWhile (fun c => c ≠ '?')
    some (scheme, netloc, path)

/-- Drop everything up to and including the last occurrence of `sep`
(Python `s.rpartition(sep)[2]`, which is `s` itself when `sep` is absent). -/
def afterLast (sep : Char) (l : List Char) : List Char :=
  match l with
  | [] => []
  | c :: rest =>
      if (c :: rest).contains sep then
        if c = sep ∧ ¬ rest.contains sep then rest
        else afterLast sep rest
      else c :: rest

/-- The `(hostname, port-string)` decomposition of a netloc,
per `urllib.parse._hostinfo`: drop userinfo after the last `@`, handle a
bracketed IPv6 host, otherwise split at the first `:`; an empty port
string counts as no port. -/
def hostinfo (netloc : List Char) : List Char × Option (List Char) :=
  let hi := afterLast '@' netloc
  if hi.contains '[' then
    let bracketed := (hi.dropWhile (fun c => c ≠ '[')).drop 1
    let host := bracketed.takeWhile (fun c => c ≠ ']')
    let afterBr := (bracketed.dropWhile (fun c => c ≠ ']')).drop 1
    let port := (afterBr.dropWhile (fun c => c ≠ ':')).drop 1
    (host, if port.isEmpty then none else some port)
  else
    let host := hi.takeWhile (fun c => c ≠ ':')
    let port :=
      if hi.contains ':' then (hi.dropWhile (fun c => c ≠ ':')).drop 1
      else []
    (host, if port.isEmpty then none else some port)

/-- Port-string validation of `urlparse(...).port`: ASCII digits only and
within `0..65535`, else `ValueError`. -/
def parsePort (l : List Char) : Option Nat :=
  if l.isEmpty then none
  else if l.all Char.isDigit then
    let n := l.foldl (fun acc c => acc * 10 + (c.toNat - 48)) 0
    if n ≤ 65535 then some n else none
  else none

/-- The schemes for which `urlparse` splits `;parameters` off the path
(`urllib.parse.uses_params`). -/
def uses_params : List String :=
  ["", "ftp", "hdl", "prospero", "http", "imap", "https", "shttp", "rtsp",
   "rtspu", "sip", "sips", "mms", "sftp", "tel"]

/-- Everything strictly before the last occurrence of `sep` (the whole
list when `sep` is absent — only used under a containment guard). -/
def beforeLast (sep : Char) : List Char → List Char
  | [] => []
  | c :: rest =>
      if (c :: rest).contains sep then
        if c = sep ∧ ¬ rest.contains sep then []
        else c :: beforeLast sep rest
      else c :: rest

/-- The path part of `urllib.parse._splitparams`, which is only invoked
when `;` occurs in the path: with a `/` present the path is cut at the
first `;` at or after the last `/` (and kept whole when the final segment
has no `;`); without a `/` it is cut at the first `;`. -/
def splitparams (path : List Char) : List Char :=
  if path.contains '/' then
    if (afterLast '/' path).contains ';' then
      beforeLast '/' path ++ '/' :: (afterLast '/' path).takeWhile (fun c => ¬ c = ';')
    else path
  else path.takeWhile (fun c => ¬ c = ';')

/-- The tail of `parse_url_parts` applied to the `urlsplit` components:
require a scheme and a hostname; apply `urlparse`'s parameter split to the
path for schemes in `uses_params`; lower-case scheme and hostname; default
the port to 443 for `https` and 80 otherwise; replace an empty path with
`"/"`. -/
def parseFromSplit (schemeOpt : Option (List Char)) (netloc path : List Char) :
    Option UrlParts :=
  match schemeOpt with
  | none => none
  | some scheme =>
      if scheme.isEmpty then none
      else
        let (host, portStr) := hostinfo netloc
        if host.isEmpty then none
        else
          let port? : Option Nat :=
            match portStr with
            | none => some (if String.mk scheme = "https" then 443 else 80)
            | some ps => parsePort ps
          match port? with
          | none => none
          | some port =>
              let path1 :=
                if uses_params.contains (String.mk scheme) ∧ path.contains ';'
                then splitparams path else path
              some { scheme := String.mk scheme
                     hostname := String.mk (host.map pyLowerChar)
                     port := port
                     path := if path1.isEmpty then "/" else String.mk path1 }

/-- `parse_url_parts(raw_url)`: decompose via `urlparse` and keep scheme,
hostname, effective port and path.  Returns `none` on any `ValueError` or
missing component, as the Python function returns `None`. -/
def parse_url_parts (raw_url : String) : Option UrlParts :=
  match urlsplitParts raw_url with
  | none => none
  | some (schemeOpt, netloc, path) => parseFromSplit schemeOpt netloc path

/-- `urls_match(candidate_url, requested_url, match_strategy)`. -/
def urls_match (candidate_url requested_url match_strategy : String) : Bool :=
  if match_strategy = "exact" then candidate_url = requested_url
  else
    match parse_url_parts candidate_url, parse_url_parts requested_url with
    | some candidate, some requested =>
        if match_strategy = "origin-path" then
          candidate.origin = requested.origin && candidate.path = requested.path
        else if match_strategy = "origin" then
          candidate.origin = requested.origin
        else false
    | _, _ => false

/-! ## Well-formed URL components for the normalization laws -/

/-- A syntactically valid scheme: a letter followed by scheme characters. -/
def validScheme (s : List Char) : Bool :=
  match s with
  | [] => false
  | c :: cs => c.isAlpha && cs.all isSchemeChar

/-- A host character for the normalization laws: printable and none of the
delimiters `/ ? # : [ ] @` that `urlsplit` or `_hostinfo` split at. -/
def validHostChar (c : Char) : Bool :=
  32 < c.toNat && !(isNetlocEnd c) && !(c = ':') && !(c = '[') && !(c = ']')
    && !(c = '@')

/-- A non-empty host made of plain host characters. -/
def validHost (h : List Char) : Bool :=
  !h.isEmpty && h.all validHostChar

/-- A URL tail (path-query-fragment section): empty or starting with one of
`/ ? #`, with printable characters throughout. -/
def validTail (r : List Char) : Bool :=
  (match r with
   | [] => true
   | c :: _ => isNetlocEnd c) && r.all (fun c => 32 < c.toNat)

/-- A netloc character as `urlsplit` keeps it: printable, not a netloc
terminator and not an IPv6 bracket (`:` and `@` are allowed). -/
def plainNetlocChar (c : Char) : Bool :=
  32 < c.toNat && !(isNetlocEnd c) && !(c = '[') && !(c = ']')

/-- The digits of the scheme-default port `parse_url_parts` fills in:
`443` for `https` (after lower-casing) and `80` otherwise. -/
def defaultPortDigits (s : List Char) : List Char :=
  if String.mk (s.map pyLowerChar) = "https" then "443".data else "80".data

/-- Assemble `scheme://` ++ netloc ++ tail as a string. -/
def mkUrl (s n r : List Char) : String :=
  String.mk (s ++ ':' :: '/' :: '/' :: (n ++ r))

/-! ## Session client error classification -/

/-- The payload of a `SessionEnsureError`. -/
structure SessionEnsureErrorT where
  status : Option Nat
  error_code : Option String
  error_message : String
  response_body_snippet : Option String
  deriving Repr, DecidableEq

/-- `classify_session_failure(error)`. -/
def classify_session_failure (error : SessionEnsureErrorT) : String :=
  if error.error_code = some "TARGET_NOT_FOUND" then "target-not-found"
  else if error.error_code = some "CDP_UNAVAILABLE" ∨ error.status = some 503 then
    "cdp-unavailable"
  else if error.error_code = some "SESSION_ALREADY_RUNNING" ∨ error.status = some 409 then
    "session-already-running"
  else if error.status = some 422 then "validation-error"
  else "session-ensure-failed"

/-! ## JSON values and scenario command steps -/

/-- A JSON value, as carried through scenario files and Core payloads. -/
inductive JVal where
  | jnull
  | jbool (b : Bool)
  | jint (n : Int)
  | jstr (s : String)
  | jobj (fields : List (String × JVal))
  | jarr (items : List JVal)
  deriving Repr

/-- `step.get(key)` on a JSON object's field list (first binding wins, as
Python dict keys are unique). -/
def jget : List (String × JVal) → String → Option JVal
  | [], _ => none
  | (k, v) :: rest, key => if k = key then some v else jget rest key

/-- Rebind `key` in a JSON object's field list. -/
def jset (fields : List (String × JVal)) (key : String) (v : JVal) :
    List (String × JVal) :=
  (key, v) :: fields.filter (fun kv => ¬ kv.1 = key)

/-- Python `isinstance(x, int)`, which is also true of `bool` values. -/
def isPyInt : JVal → Bool
  | .jint _ => true
  | .jbool _ => true
  | _ => false

/-- The integer value of a Python `int` (with `True = 1`, `False = 0`). -/
def pyIntVal : JVal → Int
  | .jint n => n
  | .jbool b => if b then 1 else 0
  | _ => 0

/-- Python truthiness, as `bool(x)` computes it on JSON values. -/
def pyTruthy : JVal → Bool
  | .jnull => false
  | .jbool b => b
  | .jint n => ¬ n = 0
  | .jstr s => ¬ s = ""
  | .jobj fields => ¬ fields.isEmpty
  | .jarr items => ¬ items.isEmpty

/-- The resolved `timeout_ms` of a step: `step.get("timeoutMs",
default_timeout_ms)` if it is a (Python) integer and strictly positive,
else the caller's default. -/
def stepTimeout (step : List (String × JVal)) (default_timeout_ms : Int) : JVal :=
  match jget step "timeoutMs" with
  | none => .jint default_timeout_ms
  | some v => if isPyInt v ∧ pyIntVal v > 0 then v else .jint default_timeout_ms

/-- `command_payload_from_step(step, default_timeout_ms)`: the pure mapping
from a step's `do` verb and fields to the `(command, payload)` pair, raising
(`Except.error`) on validation failures exactly as the Python function
raises `RuntimeError`. -/
def command_payload_from_step (step : List (String × JVal))
    (default_timeout_ms : Int) : Except String (String × List (String × JVal)) :=
  match jget step "do" with
  | some (.jstr command) =>
      if command = "" then
        .error "Scenario command step requires non-empty string \x27do\x27"
      else
      let timeout_ms := stepTimeout step default_timeout_ms
      if command = "reload" then
        .ok (command, [("waitUntil", .jstr "load"), ("timeoutMs", timeout_ms)])
      else if command = "wait" then
        let wait_ms : JVal :=
          match jget step "ms" with
          | none => timeout_ms
          | some v => if isPyInt v ∧ pyIntVal v > 0 then v else timeout_ms
        .ok (command, [("ms", wait_ms)])
      else if command = "navigate" then
        match jget step "url" with
        | some (.jstr url) =>
            if url = "" then .error "navigate step requires non-empty string \x27url\x27"
            else .ok (command, [("url", .jstr url), ("waitUntil", .jstr "load"),
              ("timeoutMs", timeout_ms)])
        | _ => .error "navigate step requires non-empty string \x27url\x27"
      else if command = "evaluate" then
        match jget step "expression" with
        | some (.jstr expression) =>
            if pyStrip expression = "" then
              .error "evaluate step requires non-empty string \x27expression\x27"
            else
              let await_promise := (jget step "awaitPromise").getD (.jbool true)
              let return_by_value := (jget step "returnByValue").getD (.jbool true)
              .ok (command, [("expression", .jstr expression),
                ("awaitPromise", .jbool (pyTruthy await_promise)),
                ("returnByValue", .jbool (pyTruthy return_by_value)),
                ("timeoutMs", timeout_ms)])
        | _ => .error "evaluate step requires non-empty string \x27expression\x27"
      else if command = "click" then
        match jget step "selector" with
        | some (.jstr selector) =>
            if selector = "" then .error "click step requires non-empty string \x27selector\x27"
            else .ok (command, [("selector", .jstr selector), ("timeoutMs", timeout_ms)])
        | _ => .error "click step requires non-empty string \x27selector\x27"
      else if command = "type" then
        match jget step "selector" with
        | some (.jstr selector) =>
            if selector = "" then .error "type step requires non-empty string \x27selector\x27"
            else
              match jget step "text" with
              | some (.jstr text) =>
                  let clear := pyTruthy ((jget step "clear").getD (.jbool true))
                  .ok (command, [("selector", .jstr selector), ("text", .jstr text),
                    ("clear", .jbool clear), ("timeoutMs", timeout_ms)])
              | _ => .error "type step requires string \x27text\x27"
        | _ => .error "type step requires non-empty string \x27selector\x27"
      else if command = "webgl-diagnostics" then
        .ok (command, [("timeoutMs", timeout_ms)])
      else if command = "snapshot" then
        let full_page := pyTruthy ((jget step "fullPage").getD (.jbool true))
        .ok (command, [("fullPage", .jbool full_page), ("timeoutMs", timeout_ms)])
      else
        .error ("Unsupported command \x27" ++ command ++
          "\x27. Allowed commands: reload, wait, navigate, evaluate, click, type, snapshot, webgl-diagnostics")
  | _ => .error "Scenario command step requires non-empty string \x27do\x27"

/-! ## Core command outcomes

`run_core_command` returns either a success dictionary `{ok: True, status,
result}` or a failure dictionary `{ok: False, status, error, errorCode,
errorMessage, errorDetails, responseBodySnippet}` (the `error` field of a
failure is always a string, by the fallback chain ending in
`"request failed"`).  The HTTP exchange itself is external, so a run of the
pipeline is parameterised by an oracle `Nat → CoreOutcome` giving the
outcome of the `n`-th Core command call of the run. -/

inductive CoreOutcome where
  | success (status : Option Nat) (result : List (String × JVal))
  | failure (status : Option Nat) (error : String) (errorCode : Option String)
      (errorMessage : Option String) (errorDetails : Option JVal)
      (responseBodySnippet : Option String)
  deriving Repr

namespace CoreOutcome

def okB : CoreOutcome → Bool
  | .success _ _ => true
  | .failure _ _ _ _ _ _ => false

def statusO : CoreOutcome → Option Nat
  | .success st _ => st
  | .failure st _ _ _ _ _ => st

def errorO : CoreOutcome → Option String
  | .success _ _ => none
  | .failure _ e _ _ _ _ => some e

/-- The `error` string of a failure (`""` on success, where it is unused). -/
def errorStr : CoreOutcome → String
  | .success _ _ => ""
  | .failure _ e _ _ _ _ => e

def errorCodeO : CoreOutcome → Option String
  | .success _ _ => none
  | .failure _ _ c _ _ _ => c

def errorMessageO : CoreOutcome → Option String
  | .success _ _ => none
  | .failure _ _ _ m _ _ => m

def errorDetailsO : CoreOutcome → Option JVal
  | .success _ _ => none
  | .failure _ _ _ _ d _ => d

def snippetO : CoreOutcome → Option String
  | .success _ _ => none
  | .failure _ _ _ _ _ s => s

def resultO : CoreOutcome → Option (List (String × JVal))
  | .success _ r => some r
  | .failure _ _ _ _ _ _ => none

end CoreOutcome

/-! ## Stale-transport detection and navigate fallback synthesis -/

/-- `STALE_TRANSPORT_HINTS`. -/
def STALE_TRANSPORT_HINTS : List String :=
  ["websocket", "readystate 3", "closed", "target closed", "session closed",
   "cdp client is not attached", "socket hang up", "econnreset"]

/-- `is_stale_transport_error(error_message, response_body_snippet)`. -/
def is_stale_transport_error (error_message response_body_snippet : Option String) :
    Bool :=
  let text := pyLower (error_message.getD "" ++ " " ++ response_body_snippet.getD "")
  STALE_TRANSPORT_HINTS.any (fun hint => pyContains text hint)

/-- `should_retry_navigate_with_evaluate(command_result)`. -/
def should_retry_navigate_with_evaluate (command_result : CoreOutcome) : Bool :=
  if command_result.okB then false
  else
    let error_text := pyLower (command_result.errorO.getD "" ++ " " ++
      command_result.errorMessageO.getD "" ++ " " ++
      command_result.snippetO.getD "")
    pyContains error_text "page.once is not a function" ||
      pyContains error_text "client.page.once"

/-- Hexadecimal digit (lower case), for `json.dumps` unicode escapes. -/
def hexDigit (n : Nat) : Char :=
  if n < 10 then Char.ofNat (48 + n) else Char.ofNat (87 + n)

/-- Four-digit `\uXXXX` escape body. -/
def u4 (n : Nat) : List Char :=
  [hexDigit (n / 4096 % 16), hexDigit (n / 256 % 16), hexDigit (n / 16 % 16),
   hexDigit (n % 16)]

/-- Escaping of one character by `json.dumps` with its default
`ensure_ascii=True` (characters outside `0x20..0x7e` become `\u` escapes,
with surrogate pairs beyond the BMP). -/
def jsonEscapeChar (c : Char) : List Char :=
  if c = '"' then ['\\', '"']
  else if c = '\\' then ['\\', '\\']
  else if c = '\n' then ['\\', 'n']
  else if c = '\x0d' then ['\\', 'r']
  else if c = '\t' then ['\\', 't']
  else if c = '\x08' then ['\\', 'b']
  else if c = '\x0c' then ['\\', 'f']
  else if c.toNat < 32 ∨ c.toNat > 126 then
    if c.toNat ≤ 65535 then '\\' :: 'u' :: u4 c.toNat
    else
      ('\\' :: 'u' :: u4 (55296 + (c.toNat - 65536) / 1024)) ++
        ('\\' :: 'u' :: u4 (56320 + (c.toNat - 65536) % 1024))
  else [c]

/-- `json.dumps(s)` for a string value. -/
def pyJsonDumpsStr (s : String) : String :=
  String.mk ('"' :: (s.data.flatMap jsonEscapeChar) ++ ['"'])

/-- `build_navigate_fallback_expression(url)`. -/
def build_navigate_fallback_expression (url : String) : String :=
  "(() => \x7b " ++ "window.location.assign(" ++ pyJsonDumpsStr url ++ "); " ++
    "return \x7b ok: true, via: \x27location.assign\x27 \x7d; " ++ "\x7d)()"

/-! ## Failure next-action synthesis -/

/-- `PIPELINE_RETRY_BASE_COMMAND` and the derived retry-command constants. -/
def PIPELINE_RETRY_BASE_COMMAND : String :=
  "python3 \"$\x7bCODEX_HOME:-$HOME/.codex\x7d/skills/fix-app-bugs/scripts/terminal_probe_pipeline.py\" " ++
    "--project-root <project-root> --session-id auto --tab-url <url> " ++
    "--tab-url-match-strategy origin-path --scenarios <scenarios.json> --json"

def PIPELINE_RETRY_FORCE_RECOVERY_COMMAND : String :=
  PIPELINE_RETRY_BASE_COMMAND ++ " --force-new-session --open-tab-if-missing"

def PIPELINE_RETRY_EXACT_COMMAND : String :=
  PIPELINE_RETRY_BASE_COMMAND ++ " --tab-url-match-strategy exact --no-open-tab-if-missing"

def PIPELINE_RETRY_TIMEOUT_COMMAND : String :=
  PIPELINE_RETRY_FORCE_RECOVERY_COMMAND ++ " --timeout-ms 30000"

def SESSION_START_COMMAND : String :=
  "npm run agent:session -- --tab-url <url> --match-strategy origin-path"

def SESSION_RESTART_COMMAND : String :=
  "npm run agent:stop && " ++ SESSION_START_COMMAND

def VISUAL_START_RECOVERY_COMMAND : String :=
  "python3 \"$\x7bCODEX_HOME:-$HOME/.codex\x7d/skills/fix-app-bugs/scripts/visual_debug_start.py\" " ++
    "--project-root <project-root> --actual-app-url <url> --auto-recover-session --json"

/-- A `FailureNextAction` record. -/
structure NextAction where
  id : String
  label : String
  reason : String
  command : String
  source : String
  deriving Repr, DecidableEq

/-- `build_failure_next_action(source=…, error_code=…, error_message=…,
response_body_snippet=…, failure_category=…)`. -/
def build_failure_next_action (source : String) (error_code : Option String)
    (error_message : Option String) (response_body_snippet : Option String)
    (failure_category : Option String) : NextAction :=
  let normalized_code : Option String :=
    match error_code with
    | some c => if pyStrip c = "" then none else some (pyUpper (pyStrip c))
    | none => none
  let normalized_category : Option String :=
    match failure_category with
    | some c => if pyStrip c = "" then none else some (pyLower (pyStrip c))
    | none => none
  let stale_transport := is_stale_transport_error error_message response_body_snippet
  if normalized_category = some "target-not-found" ∨ normalized_code = some "TARGET_NOT_FOUND" then
    { id := "open-tab-recovery", label := "Open missing tab and retry",
      reason := "Target tab was not found while ensuring session.",
      command := PIPELINE_RETRY_FORCE_RECOVERY_COMMAND, source := source }
  else if normalized_category = some "session-already-running" ∨
      normalized_code = some "SESSION_ALREADY_RUNNING" then
    { id := "replace-active-session", label := "Replace active session",
      reason := "Active session conflict blocked ensure/reuse flow.",
      command := SESSION_RESTART_COMMAND, source := source }
  else if normalized_category = some "cdp-unavailable" ∨
      normalized_code = some "CDP_UNAVAILABLE" then
    { id := "recover-cdp-session", label := "Recover CDP and session",
      reason := "CDP endpoint/session channel is unavailable.",
      command := VISUAL_START_RECOVERY_COMMAND, source := source }
  else if normalized_category = some "ambiguous-target" ∨
      normalized_code = some "AMBIGUOUS_TARGET" then
    { id := "use-exact-target", label := "Use exact target match",
      reason := "Multiple tabs matched the requested target URL.",
      command := PIPELINE_RETRY_EXACT_COMMAND, source := source }
  else if normalized_code = some "IMAGE_DIMENSION_MISMATCH" then
    { id := "normalize-reference-size", label := "Retry with resize fallback",
      reason := "Reference/actual image dimensions differ.",
      command := PIPELINE_RETRY_BASE_COMMAND, source := source }
  else if normalized_code = some "COMMAND_TIMEOUT" then
    { id := "increase-timeout", label := "Retry with longer timeout",
      reason := "Command exceeded timeout window before completion.",
      command := PIPELINE_RETRY_TIMEOUT_COMMAND, source := source }
  else if normalized_code = some "FILE_NOT_FOUND" then
    { id := "verify-reference-path", label := "Verify file path",
      reason := "A referenced file path could not be resolved.",
      command := "ls -l <reference-image-path>", source := source }
  else if normalized_code = some "VALIDATION_ERROR" then
    if stale_transport then
      { id := "stale-transport-retry", label := "Retry with fresh session",
        reason := "Validation error indicates stale/closed transport state.",
        command := PIPELINE_RETRY_FORCE_RECOVERY_COMMAND, source := source }
    else
      { id := "fix-scenario-payload", label := "Fix scenario payload and retry",
        reason := "Validation failed for scenario command payload.",
        command := PIPELINE_RETRY_BASE_COMMAND, source := source }
  else
    { id := "rerun-terminal-probe", label := "Rerun terminal-probe",
      reason := "Collect deterministic runtime artifacts for the next failure pass.",
      command := PIPELINE_RETRY_BASE_COMMAND, source := source }

/-! ## Scenario executor (`run_pipeline`'s per-scenario loop)

A scenario definition as produced by `load_scenarios` (its `name` is a
non-empty string, `referenceImagePath` a string or absent and `fullPage` a
bool — `load_scenarios` validates these, so the embedding types them).
It is called `Scene` here; raw command steps stay untyped `JVal`s because
`run_pipeline` validates each step itself. -/

structure Scene where
  name : String
  commands : List JVal
  referenceImagePath : Option String
  fullPage : Bool
  deriving Repr

/-- One entry of a `ScenarioRuntimeEntry`'s `commands[]` list. -/
structure CommandRecord where
  command : String
  payload : List (String × JVal)
  ok : Bool
  status : Option Nat
  error : Option String
  errorCode : Option String
  errorMessage : Option String
  errorDetails : Option JVal
  responseBodySnippet : Option String
  result : Option (List (String × JVal))
  fallbackFor : Option String
  deriving Repr

/-- Build a command record from a Core outcome. -/
def mkCommandRecord (command : String) (payload : List (String × JVal))
    (cr : CoreOutcome) (fallbackFor : Option String) : CommandRecord :=
  { command := command, payload := payload, ok := cr.okB, status := cr.statusO,
    error := cr.errorO, errorCode := cr.errorCodeO,
    errorMessage := cr.errorMessageO, errorDetails := cr.errorDetailsO,
    responseBodySnippet := cr.snippetO, result := cr.resultO,
    fallbackFor := fallbackFor }

/-- The `snapshot` record of a runtime entry. -/
structure SnapRecord where
  ok : Bool
  status : Option Nat
  error : Option String
  errorCode : Option String
  errorMessage : Option String
  errorDetails : Option JVal
  responseBodySnippet : Option String
  payload : List (String × JVal)
  result : Option (List (String × JVal))
  deriving Repr

def mkSnapRecord (payload : List (String × JVal)) (cr : CoreOutcome) : SnapRecord :=
  { ok := cr.okB, status := cr.statusO, error := cr.errorO,
    errorCode := cr.errorCodeO, errorMessage := cr.errorMessageO,
    errorDetails := cr.errorDetailsO, responseBodySnippet := cr.snippetO,
    payload := payload, result := cr.resultO }

/-- One entry of `compareReference.attempts`. -/
structure CompareAttempt where
  ok : Bool
  status : Option Nat
  error : Option String
  errorCode : Option String
  errorMessage : Option String
  errorDetails : Option JVal
  responseBodySnippet : Option String
  payload : List (String × JVal)
  result : Option (List (String × JVal))
  deriving Repr

def mkCompareAttempt (payload : List (String × JVal)) (cr : CoreOutcome) :
    CompareAttempt :=
  { ok := cr.okB, status := cr.statusO, error := cr.errorO,
    errorCode := cr.errorCodeO, errorMessage := cr.errorMessageO,
    errorDetails := cr.errorDetailsO, responseBodySnippet := cr.snippetO,
    payload := payload, result := cr.resultO }

/-- The `compareReference` record of a runtime entry. -/
structure CompareRecord where
  ok : Bool
  status : Option Nat
  error : Option String
  errorCode : Option String
  errorMessage : Option String
  errorDetails : Option JVal
  responseBodySnippet : Option String
  payload : List (String × JVal)
  result : Option (List (String × JVal))
  attempts : List CompareAttempt
  fallbackApplied : Bool
  deriving Repr

/-- A `ScenarioRuntimeEntry` (timestamps omitted: they carry no logic). -/
structure RuntimeEntry where
  name : String
  commands : List CommandRecord
  snapshot : Option SnapRecord
  compareReference : Option CompareRecord
  errors : List String
  nextAction : Option NextAction
  ok : Bool
  deriving Repr

/-- The error message recorded when a scenario command fails. -/
def commandFailMsg (command : String) (cr : CoreOutcome) : String :=
  match cr.errorCodeO with
  | some c =>
      if c = "" then
        "Scenario command \x27" ++ command ++ "\x27 failed: " ++ cr.errorStr
      else
        "Scenario command \x27" ++ command ++ "\x27 failed [" ++ c ++ "]: " ++ cr.errorStr
  | none => "Scenario command \x27" ++ command ++ "\x27 failed: " ++ cr.errorStr

/-- The error message recorded when the navigate fallback fails. -/
def fallbackFailMsg (cr : CoreOutcome) : String :=
  match cr.errorCodeO with
  | some c =>
      if c = "" then "Scenario command \x27navigate\x27 fallback failed: " ++ cr.errorStr
      else "Scenario command \x27navigate\x27 fallback failed [" ++ c ++ "]: " ++ cr.errorStr
  | none => "Scenario command \x27navigate\x27 fallback failed: " ++ cr.errorStr

/-- The `error_message` argument passed to `build_failure_next_action` for
a failed Core call: its `errorMessage` if that is a string, else its
`error`. -/
def naErrorMessage (cr : CoreOutcome) : String :=
  cr.errorMessageO.getD cr.errorStr

/-- The `evaluate` payload synthesised for the navigate fallback. -/
def navigateFallbackPayload (url : String) (timeout_ms : Int) :
    List (String × JVal) :=
  [("expression", .jstr (build_navigate_fallback_expression url)),
   ("awaitPromise", .jbool true), ("returnByValue", .jbool true),
   ("timeoutMs", .jint timeout_ms)]

/-- `str(payload.get("url") or "")` on the navigate payload. -/
def payloadUrl (payload : List (String × JVal)) : String :=
  match jget payload "url" with
  | some (.jstr u) => u
  | _ => ""

/-- The state coming out of a scenario's command loop: the command records
produced, the errors and next action recorded, whether the scenario has
failed (the loop `break`s at that point), and the next Core-call index. -/
structure StepsOut where
  recs : List CommandRecord
  errors : List String
  nextAction : Option NextAction
  failed : Bool
  k : Nat
  deriving Repr

/-- The per-scenario command loop of `run_pipeline`: process steps in
order, breaking on the first failure; a failed `navigate` matching the
stale-transport signature is retried once through an `evaluate` fallback
tagged `fallbackFor: navigate` when `navigate_fallback` is enabled. -/
def runSteps (orc : Nat → CoreOutcome) (timeout_ms : Int)
    (navigate_fallback : Bool) : List JVal → Nat → StepsOut
  | [], k => ⟨[], [], none, false, k⟩
  | raw :: rest, k =>
      match raw with
      | .jobj step =>
          match command_payload_from_step step timeout_ms with
          | .error msg =>
              ⟨[], [msg],
               some (build_failure_next_action "scenario-definition"
                 (some "VALIDATION_ERROR") (some msg) none none),
               true, k⟩
          | .ok (command, payload) =>
              let cr := orc k
              let rec1 := mkCommandRecord command payload cr none
              if cr.okB then
                let out := runSteps orc timeout_ms navigate_fallback rest (k + 1)
                ⟨rec1 :: out.recs, out.errors, out.nextAction, out.failed, out.k⟩
              else if command = "navigate" ∧ navigate_fallback ∧
                  should_retry_navigate_with_evaluate cr then
                let fbPayload := navigateFallbackPayload (payloadUrl payload) timeout_ms
                let fr := orc (k + 1)
                let rec2 := mkCommandRecord "evaluate" fbPayload fr (some "navigate")
                if fr.okB then
                  let out := runSteps orc timeout_ms navigate_fallback rest (k + 2)
                  ⟨rec1 :: rec2 :: out.recs, out.errors, out.nextAction, out.failed, out.k⟩
                else
                  ⟨[rec1, rec2], [fallbackFailMsg fr],
                   some (build_failure_next_action "scenario-command" fr.errorCodeO
                     (some (naErrorMessage fr)) fr.snippetO none),
                   true, k + 2⟩
              else
                ⟨[rec1], [commandFailMsg command cr],
                 some (build_failure_next_action "scenario-command" cr.errorCodeO
                   (some (naErrorMessage cr)) cr.snippetO none),
                 true, k + 1⟩
      | _ =>
          ⟨[], ["Scenario command step must be an object"],
           some (build_failure_next_action "scenario-definition" none
             (some "Scenario command step must be an object") none none),
           true, k⟩

/-- The image path of a successful snapshot result, when present. -/
def snapshotPathOf (cr : CoreOutcome) : Option String :=
  match cr.resultO with
  | some result =>
      match jget result "path" with
      | some (.jstr p) => some p
      | _ => none
  | none => none

/-- The defensive default applied at the end of a scenario: a failed
scenario without a categorized next action gets a generic one. -/
def finalNextAction (failed : Bool) (na : Option NextAction) : Option NextAction :=
  if failed ∧ na = none then
    some (build_failure_next_action "scenario" none
      (some "Scenario failed without categorized error details") none none)
  else na

/-- The `compare-reference` payload for a given dimension policy. -/
def comparePayload (snapshot_path reference_path label policy interpolation : String) :
    List (String × JVal) :=
  [("actualImagePath", .jstr snapshot_path),
   ("referenceImagePath", .jstr reference_path),
   ("label", .jstr label), ("writeDiff", .jbool true),
   ("dimensionPolicy", .jstr policy),
   ("resizeInterpolation", .jstr interpolation)]

/-- Execute one scenario: run its command loop, then (unless it failed)
the snapshot, then (if a reference image is configured and a snapshot path
was obtained) the reference comparison with its dimension-mismatch resize
retry.  Returns the runtime entry and the next Core-call index. -/
def runScene (orc : Nat → CoreOutcome) (timeout_ms : Int)
    (normalize_reference_size : Bool) (resize_interpolation : String)
    (navigate_fallback : Bool) (sc : Scene) (k : Nat) : RuntimeEntry × Nat :=
  let out := runSteps orc timeout_ms navigate_fallback sc.commands k
  if out.failed then
    (⟨sc.name, out.recs, none, none, out.errors,
      finalNextAction true out.nextAction, false⟩, out.k)
  else
    let snapshot_payload : List (String × JVal) :=
      [("fullPage", .jbool sc.fullPage), ("timeoutMs", .jint timeout_ms)]
    let sres := orc out.k
    let snapRec := mkSnapRecord snapshot_payload sres
    let k1 := out.k + 1
    if ¬ sres.okB then
      (⟨sc.name, out.recs, some snapRec, none,
        out.errors ++ [(match sres.errorCodeO with
          | some c => if c = "" then "Snapshot failed: " ++ sres.errorStr
              else "Snapshot failed [" ++ c ++ "]: " ++ sres.errorStr
          | none => "Snapshot failed: " ++ sres.errorStr)],
        finalNextAction true (some (build_failure_next_action "snapshot"
          sres.errorCodeO (some (naErrorMessage sres)) sres.snippetO none)),
        false⟩, k1)
    else
      match snapshotPathOf sres with
      | none =>
          (⟨sc.name, out.recs, some snapRec, none,
            out.errors ++ ["Snapshot command returned no image path"],
            finalNextAction true (some (build_failure_next_action "snapshot" none
              (some "Snapshot command returned no image path") none none)),
            false⟩, k1)
      | some snapshot_path =>
          match sc.referenceImagePath with
          | some reference_path =>
              if pyStrip reference_path = "" ∨ snapshot_path = "" then
                (⟨sc.name, out.recs, some snapRec, none, out.errors,
                  finalNextAction false out.nextAction, true⟩, k1)
              else
                let strictPayload := comparePayload snapshot_path reference_path
                  sc.name "strict" resize_interpolation
                let c1 := orc k1
                let att1 := mkCompareAttempt strictPayload c1
                let (finalRes, attempts, k2) :=
                  if ¬ c1.okB ∧ c1.errorCodeO = some "IMAGE_DIMENSION_MISMATCH" ∧
                      normalize_reference_size then
                    let resizePayload := comparePayload snapshot_path reference_path
                      sc.name "resize-reference-to-actual" resize_interpolation
                    let c2 := orc (k1 + 1)
                    (c2, [att1, mkCompareAttempt resizePayload c2], k1 + 2)
                  else (c1, [att1], k1 + 1)
                let compareRec : CompareRecord :=
                  { ok := finalRes.okB, status := finalRes.statusO,
                    error := finalRes.errorO, errorCode := finalRes.errorCodeO,
                    errorMessage := finalRes.errorMessageO,
                    errorDetails := finalRes.errorDetailsO,
                    responseBodySnippet := finalRes.snippetO,
                    payload := ((attempts.getLast?).map (fun a => a.payload)).getD strictPayload,
                    result := finalRes.resultO, attempts := attempts,
                    fallbackApplied := decide (attempts.length > 1) }
                if finalRes.okB then
                  (⟨sc.name, out.recs, some snapRec, some compareRec, out.errors,
                    finalNextAction false out.nextAction, true⟩, k2)
                else
                  (⟨sc.name, out.recs, some snapRec, some compareRec,
                    out.errors ++ [(match finalRes.errorCodeO with
                      | some c => if c = "" then "compare-reference failed: " ++ finalRes.errorStr
                          else "compare-reference failed [" ++ c ++ "]: " ++ finalRes.errorStr
                      | none => "compare-reference failed: " ++ finalRes.errorStr)],
                    finalNextAction true (some (build_failure_next_action
                      "compare-reference" finalRes.errorCodeO
                      (some (naErrorMessage finalRes)) finalRes.snippetO none)),
                    false⟩, k2)
          | none =>
              (⟨sc.name, out.recs, some snapRec, none, out.errors,
                finalNextAction false out.nextAction, true⟩, k1)

/-- The scenario loop of `run_pipeline`: every scenario in the list is
executed, in order, regardless of earlier scenarios' failures. -/
def runScenes (orc : Nat → CoreOutcome) (timeout_ms : Int)
    (normalize_reference_size : Bool) (resize_interpolation : String)
    (navigate_fallback : Bool) : List Scene → Nat → List RuntimeEntry × Nat
  | [], k => ([], k)
  | sc :: rest, k =>
      let (entry, k') := runScene orc timeout_ms normalize_reference_size
        resize_interpolation navigate_fallback sc k
      let (entries, k'') := runScenes orc timeout_ms normalize_reference_size
        resize_interpolation navigate_fallback rest k'
      (entry :: entries, k'')

/-! ## Target resolver (`list_tabs_via_cdp` filtering and
`resolve_exact_tab_url_via_cdp`) -/

/-- One character of Python `repr` for a string quoted with `q`:
backslash and the quote are backslash-escaped, newline, carriage return
and tab use their mnemonic escapes, and the remaining ASCII
non-printables become `\xHH` (characters at 128 and above are kept
as-is, as `repr` does for printable text). -/
def pyReprEscape (q : Char) (c : Char) : List Char :=
  if c = '\\' ∨ c = q then ['\\', c]
  else if c = '\n' then ['\\', 'n']
  else if c = '\x0d' then ['\\', 'r']
  else if c = '\t' then ['\\', 't']
  else if c.toNat < 32 ∨ c.toNat = 127 then
    ['\\', 'x', hexDigit (c.toNat / 16), hexDigit (c.toNat % 16)]
  else [c]

/-- Python `repr` of a string: single-quoted, switching to double quotes
when the text contains a single quote but no double quote. -/
def pyReprStr (s : String) : String :=
  let sq : Char := Char.ofNat 39
  let q : Char := if s.data.contains sq ∧ ¬ s.data.contains '"' then '"' else sq
  String.mk (q :: s.data.flatMap (pyReprEscape q) ++ [q])

mutual

/-- Python `repr` of a parsed JSON value: `None`/`True`/`False`, decimal
integers, quoted strings, `[...]` lists and `\x7b...\x7d` dicts with
`", "` separators, as `repr` prints containers parsed from JSON. -/
def pyReprJ : JVal → String
  | .jnull => "None"
  | .jbool b => if b then "True" else "False"
  | .jint n => toString n
  | .jstr s => pyReprStr s
  | .jobj fields =>
      "\x7b" ++ String.intercalate ", " (pyReprFields fields) ++ "\x7d"
  | .jarr items => "[" ++ String.intercalate ", " (pyReprItems items) ++ "]"

/-- The rendered `key: value` entries of a dict. -/
def pyReprFields : List (String × JVal) → List String
  | [] => []
  | (k, v) :: rest => (pyReprStr k ++ ": " ++ pyReprJ v) :: pyReprFields rest

/-- The rendered elements of a list. -/
def pyReprItems : List JVal → List String
  | [] => []
  | v :: rest => pyReprJ v :: pyReprItems rest

end

/-- Python `str(x)` of a parsed JSON value: a string is returned as-is,
every other value prints as its `repr`. -/
def pyStrJ : JVal → String
  | .jstr s => s
  | v => pyReprJ v

/-- The page-target filtering of `list_tabs_via_cdp`: keep array elements
that are objects whose `type` equals `"page"` and whose `url` is a string,
as `(id, url)` pairs with the id passed through `str` when present. -/
def pageTargets : List JVal → List (Option String × String)
  | [] => []
  | .jobj fields :: rest =>
      let keep :=
        match jget fields "type", jget fields "url" with
        | some (.jstr t), some (.jstr u) =>
            if t = "page" then
              [((jget fields "id").bind (fun i =>
                  match i with
                  | .jnull => none
                  | v => some (pyStrJ v)), u)]
            else []
        | _, _ => []
      keep ++ pageTargets rest
  | _ :: rest => pageTargets rest

/-- The outcome of a `GET /json/list` call: an HTTP/parse failure with the
error code `list_tabs_via_cdp` assigns (`CDP_LIST_UNAVAILABLE`,
`CDP_LIST_HTTP_ERROR` or `INVALID_CDP_LIST_RESPONSE`), or the parsed JSON
array. -/
inductive CdpListOutcome where
  | fail (status : Option Nat) (errorCode : String) (errorMessage : String)
  | ok (status : Option Nat) (body : List JVal)
  deriving Repr

/-- The result record of `resolve_exact_tab_url_via_cdp` (the `endpoint`
and `responseBodySnippet` bookkeeping fields are omitted: they carry no
logic). -/
structure ResolveOut where
  ok : Bool
  errorCode : Option String
  errorMessage : Option String
  status : Option Nat
  matchCount : Nat
  candidates : List (Option String × String)
  resolvedTabUrl : Option String
  targetId : Option String
  deriving Repr, DecidableEq

/-- `resolve_exact_tab_url_via_cdp(tab_url, …)` applied to a tab listing:
filter the page targets through `urls_match`; zero matches is
`TARGET_NOT_FOUND`, more than one is `AMBIGUOUS_TARGET`, exactly one
resolves to that target's URL and id. -/
def resolve_exact_tab_url_via_cdp (listed : CdpListOutcome)
    (tab_url match_strategy : String) : ResolveOut :=
  match listed with
  | .fail st code msg =>
      ⟨false, some code, some msg, st, 0, [], none, none⟩
  | .ok st body =>
      let matched := (pageTargets body).filter
        (fun t => urls_match t.2 tab_url match_strategy)
      match matched with
      | [] =>
          ⟨false, some "TARGET_NOT_FOUND",
           some "No matching tab found in CDP /json/list", st, 0, [], none, none⟩
      | [t] => ⟨true, none, none, st, 1, matched, some t.2, t.1⟩
      | _ :: _ :: _ =>
          ⟨false, some "AMBIGUOUS_TARGET",
           some "Multiple tabs matched the requested URL", st,
           matched.length, matched, none, none⟩

/-! ## Session resolution state machine (`resolve_auto_session`) -/

/-- `SESSION_ENSURE_RETRY_LIMIT`. -/
def SESSION_ENSURE_RETRY_LIMIT : Nat := 3

/-- The session record a successful `ensure_session` returns. -/
structure EnsuredSession where
  sessionId : String
  state : Option String
  attachedTargetUrl : Option String
  reused : Bool
  deriving Repr

/-- The result of `stop_session`. -/
structure StopOut where
  ok : Bool
  status : Option Nat
  errorCode : Option String
  errorMessage : Option String
  deriving Repr

/-- The result of `open_tab_via_cdp` (its failure dictionaries carry no
`errorCode` key, which is why an open-tab failure is always raised with a
`None` error code). -/
structure OpenTabOut where
  ok : Bool
  status : Option Nat
  errorMessage : Option String
  deriving Repr

/-- The mutable lifecycle record of one `resolve_auto_session` call; the
`actions` audit log is kept as the ordered list of action names. -/
structure Lifecycle where
  forceNewSession : Bool
  openTabIfMissing : Bool
  tabUrlMatchStrategy : String
  failureCategory : Option String
  ensureAttempts : Nat
  firstEnsureAttemptSucceeded : Bool
  fallbackUsed : Bool
  fallbackActionsUsed : List String
  attachBranch : String
  actions : List String
  deriving Repr

/-- An `AutoSessionResolutionError`. -/
structure AutoErr where
  message : String
  failure_category : Option String
  error_code : Option String
  lifecycle : Lifecycle
  deriving Repr

/-- The success payload of `resolve_auto_session`. -/
structure ResolveAutoOk where
  ensured : EnsuredSession
  lifecycle : Lifecycle
  resolvedTabUrl : String
  tabUrlMatchStrategy : String
  deriving Repr

/-- The external collaborators of one `resolve_auto_session` call: the
health probe's active session id, the stop outcome, and the outcome of the
`n`-th tab-listing / ensure / open-tab call of the run. -/
structure AutoEnv where
  health : Option String
  stop : StopOut
  listTabs : Nat → CdpListOutcome
  ensure : Nat → Except SessionEnsureErrorT EnsuredSession
  openTab : Nat → OpenTabOut

/-- Python `str(...)` of an optional HTTP status, as interpolated into
failure messages. -/
def pyStrOptNat : Option Nat → String
  | none => "None"
  | some n => toString n

/-- Python `str(...)` of an optional string, as interpolated into failure
messages. -/
def pyStrOptStr : Option String → String
  | none => "None"
  | some s => s

/-- Append an action name to `fallback_actions_used` unless present. -/
def pushUnique (l : List String) (a : String) : List String :=
  if l.contains a then l else l ++ [a]

/-- The loop state of `resolve_auto_session`'s retry loop: the lifecycle,
the recovery flags, the current URL/strategy, the 1-based attempt counter
and the per-oracle call counters. -/
structure LoopSt where
  lifecycle : Lifecycle
  opened_tab : Bool
  resolved_exact : Bool
  fallback_actions : List String
  attach_branch : String
  current_tab_url : String
  strategy : String
  attempt : Nat
  listK : Nat
  openK : Nat
  ensureK : Nat

/-- The open-tab / backoff tail of one loop iteration, shared by the two
paths that reach it; `next` continues the loop with the updated state. -/
def loopTail (env : AutoEnv) (open_tab_if_missing : Bool) (cat : String)
    (exc : SessionEnsureErrorT) (st : LoopSt)
    (next : LoopSt → Except AutoErr ResolveAutoOk) :
    Except AutoErr ResolveAutoOk :=
  if open_tab_if_missing ∧ ¬ st.opened_tab ∧ cat = "target-not-found" then
    let o := env.openTab st.openK
    let lc := { st.lifecycle with
      actions := st.lifecycle.actions ++ ["open-tab-if-missing"] }
    if o.ok then
      next { st with
        lifecycle := { lc with fallbackUsed := true },
        opened_tab := true,
        attach_branch := "open-tab-if-missing",
        fallback_actions := pushUnique st.fallback_actions "open-tab-if-missing",
        attempt := st.attempt + 1,
        openK := st.openK + 1,
        ensureK := st.ensureK + 1 }
    else
      .error ⟨"open-tab-if-missing failed: status=" ++ pyStrOptNat o.status ++
          " message=" ++ pyStrOptStr o.errorMessage,
        some "open-tab-failed", none, lc⟩
  else if cat = "cdp-unavailable" ∧ st.attempt < SESSION_ENSURE_RETRY_LIMIT then
    let lc := { st.lifecycle with
      actions := st.lifecycle.actions ++ ["retry-after-backoff"],
      fallbackUsed := true }
    next { st with
      lifecycle := lc,
      attach_branch := "retry-after-backoff",
      fallback_actions := pushUnique st.fallback_actions "retry-after-backoff",
      attempt := st.attempt + 1,
      ensureK := st.ensureK + 1 }
  else
    .error ⟨"session ensure failed: status=" ++ pyStrOptNat exc.status ++
        " code=" ++ pyStrOptStr exc.error_code ++
        " message=" ++ exc.error_message,
      some cat, exc.error_code, st.lifecycle⟩

/-- The retry loop of `resolve_auto_session` (`for attempt in range(1, 4)`),
with the fall-off-the-end of the loop raising the retry-limit error whose
failure category is whatever the lifecycle last recorded. -/
def ensureLoop (env : AutoEnv) (open_tab_if_missing : Bool) :
    Nat → LoopSt → Except AutoErr ResolveAutoOk
  | 0, st =>
      .error ⟨"session ensure failed: retry limit exceeded",
        st.lifecycle.failureCategory, none, st.lifecycle⟩
  | fuel + 1, st =>
      let lc0 := { st.lifecycle with ensureAttempts := st.attempt }
      match env.ensure st.ensureK with
      | .ok ensured =>
          let lc := { lc0 with
            actions := lc0.actions ++ ["ensure-session"],
            firstEnsureAttemptSucceeded := st.attempt = 1,
            fallbackUsed := ¬ st.fallback_actions.isEmpty,
            fallbackActionsUsed := st.fallback_actions,
            attachBranch := st.attach_branch }
          .ok ⟨ensured, lc, st.current_tab_url, st.strategy⟩
      | .error exc =>
          let cat := classify_session_failure exc
          let lc := { lc0 with
            failureCategory := some cat,
            actions := lc0.actions ++ ["ensure-session"] }
          if cat = "target-not-found" ∧ ¬ st.resolved_exact then
            let resolved := resolve_exact_tab_url_via_cdp (env.listTabs st.listK)
              st.current_tab_url st.strategy
            let lc2 := { lc with
              actions := lc.actions ++ ["resolve-target-from-cdp-list"] }
            match resolved.resolvedTabUrl with
            | some url =>
                if resolved.ok then
                  ensureLoop env open_tab_if_missing fuel { st with
                    lifecycle := { lc2 with fallbackUsed := true },
                    resolved_exact := true,
                    attach_branch := "resolve-target-from-cdp-list",
                    fallback_actions := pushUnique st.fallback_actions
                      "resolve-target-from-cdp-list",
                    current_tab_url := url,
                    strategy := "exact",
                    attempt := st.attempt + 1,
                    listK := st.listK + 1,
                    ensureK := st.ensureK + 1 }
                else if resolved.errorCode = some "AMBIGUOUS_TARGET" then
                  .error ⟨"session ensure failed: status=" ++ pyStrOptNat exc.status ++
                      " code=AMBIGUOUS_TARGET message=" ++
                      pyStrOptStr resolved.errorMessage,
                    some "ambiguous-target", some "AMBIGUOUS_TARGET",
                    { lc2 with failureCategory := some "ambiguous-target" }⟩
                else
                  loopTail env open_tab_if_missing cat exc
                    { st with lifecycle := lc2, listK := st.listK + 1 }
                    (ensureLoop env open_tab_if_missing fuel)
            | none =>
                if resolved.errorCode = some "AMBIGUOUS_TARGET" then
                  .error ⟨"session ensure failed: status=" ++ pyStrOptNat exc.status ++
                      " code=AMBIGUOUS_TARGET message=" ++
                      pyStrOptStr resolved.errorMessage,
                    some "ambiguous-target", some "AMBIGUOUS_TARGET",
                    { lc2 with failureCategory := some "ambiguous-target" }⟩
                else
                  loopTail env open_tab_if_missing cat exc
                    { st with lifecycle := lc2, listK := st.listK + 1 }
                    (ensureLoop env open_tab_if_missing fuel)
          else
            loopTail env open_tab_if_missing cat exc { st with lifecycle := lc }
              (ensureLoop env open_tab_if_missing fuel)

/-- `resolve_auto_session(...)`: the optional forced stop of the active
session, the preflight CDP-list resolution for non-exact strategies, and
the bounded ensure/recover retry loop. -/
def resolve_auto_session (env : AutoEnv) (tab_url : String)
    (force_new_session open_tab_if_missing : Bool)
    (tab_url_match_strategy : String) : Except AutoErr ResolveAutoOk :=
  let lc : Lifecycle :=
    { forceNewSession := force_new_session,
      openTabIfMissing := open_tab_if_missing,
      tabUrlMatchStrategy := tab_url_match_strategy,
      failureCategory := none, ensureAttempts := 0,
      firstEnsureAttemptSucceeded := false, fallbackUsed := false,
      fallbackActionsUsed := [], attachBranch := "direct-ensure",
      actions := [] }
  let afterStop : Except AutoErr Lifecycle :=
    if force_new_session then
      match env.health with
      | some _ =>
          let s := env.stop
          let lc1 := { lc with actions := lc.actions ++ ["stop-active-session"] }
          if s.ok then .ok lc1
          else
            .error ⟨"force-new-session failed: status=" ++ pyStrOptNat s.status ++
                " code=" ++ pyStrOptStr s.errorCode ++
                " message=" ++ pyStrOptStr s.errorMessage,
              some "session-stop-failed", s.errorCode,
              { lc1 with failureCategory := some "session-stop-failed" }⟩
      | none => .ok { lc with actions := lc.actions ++ ["stop-active-session"] }
    else .ok lc
  match afterStop with
  | .error e => .error e
  | .ok lc1 =>
      let st0 : LoopSt :=
        { lifecycle := lc1, opened_tab := false, resolved_exact := false,
          fallback_actions := [], attach_branch := "direct-ensure",
          current_tab_url := tab_url, strategy := tab_url_match_strategy,
          attempt := 1, listK := 0, openK := 0, ensureK := 0 }
      if tab_url_match_strategy = "exact" then
        ensureLoop env open_tab_if_missing SESSION_ENSURE_RETRY_LIMIT st0
      else
        let preflight := resolve_exact_tab_url_via_cdp (env.listTabs 0)
          tab_url tab_url_match_strategy
        let lc2 := { lc1 with
          actions := lc1.actions ++ ["preflight-resolve-target-from-cdp-list"] }
        let st1 :=
          match preflight.resolvedTabUrl with
          | some url =>
              if preflight.ok then
                { st0 with
                  lifecycle := { lc2 with fallbackUsed := true },
                  resolved_exact := true,
                  attach_branch := "preflight-resolve-target-from-cdp-list",
                  fallback_actions := ["preflight-resolve-target-from-cdp-list"],
                  current_tab_url := url,
                  strategy := "exact",
                  listK := 1 }
              else { st0 with lifecycle := lc2, listK := 1 }
          | none => { st0 with lifecycle := lc2, listK := 1 }
        ensureLoop env open_tab_if_missing SESSION_ENSURE_RETRY_LIMIT st1

/-! ## Verdict builder (`build_black_screen_verdict`)

Image metrics come from an external ImageMagick probe as floating-point
ratios; the embedding carries them as rationals.  Every comparison the
pipeline performs on them is `< 0.01`, and a double compares below the
double nearest `0.01` exactly when it compares below the rational `1/100`
(the largest double under `0.01` is below `1/100`), so the rational
threshold `1/100` is faithful. -/

/-- The slice of a `ScenarioMetricsEntry` the verdict builder reads:
the scenario name, `imageMetrics.nonBlackRatio` and
`framebufferNonBlackRatio` (absent values are `none`). -/
structure MetricsE where
  name : String
  imageNonBlack : Option ℚ
  framebufferNonBlack : Option ℚ
  deriving Repr, DecidableEq

/-- The slice of a runtime entry the verdict builder reads: the scenario
name and its `errors[]` strings. -/
structure VRuntime where
  name : String
  errors : List String
  deriving Repr, DecidableEq

/-- A `BlackScreenVerdict` (the `evidence` dictionary, which only echoes
the input lists, is omitted). -/
structure Verdict where
  status : String
  confidence : String
  sourceOfTruth : String
  rationale : String
  deriving Repr, DecidableEq

/-- The render-error hint keywords. -/
def renderErrorHints : List String :=
  ["webgl", "shader", "render", "canvas", "context lost"]

/-- `" ".join(str(item) for item in errors)`. -/
def pyJoinSpace (l : List String) : String :=
  String.intercalate " " l

/-- Does a runtime entry's combined error text contain a render hint? -/
def hasRenderErrorText (errors : List String) : Bool :=
  let combined := pyLower (pyJoinSpace errors)
  renderErrorHints.any (fun hint => pyContains combined hint)

/-- `build_black_screen_verdict(metrics_scenarios, runtime_scenarios,
black_frame_candidates, framebuffer_metric_mismatches)`.  The
`isinstance` guards on names and error lists are discharged by the typed
model; `black_frame_candidates` feeds only the omitted evidence
dictionary. -/
def build_black_screen_verdict (metrics : List MetricsE) (runtime : List VRuntime)
    (black_frame_candidates framebuffer_metric_mismatches : List String) : Verdict :=
  let screenshot_black := metrics.filterMap (fun m =>
    m.imageNonBlack.bind (fun r => if r < 1/100 then some m.name else none))
  let screenshot_non_black := metrics.filterMap (fun m =>
    m.imageNonBlack.bind (fun r => if r < 1/100 then none else some m.name))
  let runtime_render_errors := runtime.filterMap (fun e =>
    if hasRenderErrorText e.errors then some e.name else none)
  let _ := black_frame_candidates
  if ¬ screenshot_black.isEmpty then
    { status := "black-screen-probable",
      confidence := if ¬ runtime_render_errors.isEmpty then "high" else "medium",
      sourceOfTruth := "screenshot-metrics-plus-runtime-errors",
      rationale := if ¬ runtime_render_errors.isEmpty then
          "Screenshot metrics show black frames; runtime render errors are also present."
        else "Screenshot metrics show black frames." }
  else if ¬ runtime_render_errors.isEmpty then
    { status := "render-errors-without-black-screenshot", confidence := "medium",
      sourceOfTruth := "screenshot-metrics-plus-runtime-errors",
      rationale := "Runtime render errors detected without black screenshot metrics." }
  else if ¬ framebuffer_metric_mismatches.isEmpty then
    { status := "non-black-screenshot-with-framebuffer-black", confidence := "medium",
      sourceOfTruth := "screenshot-metrics-plus-runtime-errors",
      rationale := "Framebuffer reported black, but screenshot metrics are non-black; screenshot metrics + runtime errors are treated as source of truth." }
  else if ¬ screenshot_non_black.isEmpty then
    { status := "no-black-screen-evidence", confidence := "high",
      sourceOfTruth := "screenshot-metrics-plus-runtime-errors",
      rationale := "Screenshot metrics indicate non-black frames and no render-error evidence." }
  else
    { status := "insufficient-evidence", confidence := "low",
      sourceOfTruth := "screenshot-metrics-plus-runtime-errors",
      rationale := "Insufficient screenshot metrics to determine black-screen status." }

/-- `black_frame_candidates` as `run_pipeline` computes it. -/
def blackFrameCandidates (metrics : List MetricsE) : List String :=
  metrics.filterMap (fun m =>
    m.imageNonBlack.bind (fun r => if r < 1/100 then some m.name else none))

/-- `framebuffer_metric_mismatches` as `run_pipeline` computes it: the
framebuffer reports black while the screenshot does not. -/
def framebufferMetricMismatches (metrics : List MetricsE) : List String :=
  metrics.filterMap (fun m =>
    match m.framebufferNonBlack, m.imageNonBlack with
    | some fb, some img =>
        if fb < 1/100 ∧ img ≥ 1/100 then some m.name else none
    | _, _ => none)

/-- The verdict of one run, with the candidate and mismatch lists computed
from the metrics entries exactly as `run_pipeline` does before calling
`build_black_screen_verdict`. -/
def runVerdict (metrics : List MetricsE) (runtime : List VRuntime) : Verdict :=
  build_black_screen_verdict metrics runtime (blackFrameCandidates metrics)
    (framebufferMetricMismatches metrics)

/-! # Theorems -/

/-- C2: `classify_session_failure` maps a `SessionEnsureError` to
`target-not-found` on `errorCode TARGET_NOT_FOUND`; to `cdp-unavailable`
on `errorCode CDP_UNAVAILABLE` or HTTP 503; to `session-already-running`
on `errorCode SESSION_ALREADY_RUNNING` or HTTP 409; to `validation-error`
on HTTP 422; and to `session-ensure-failed` in every other case — with the
clauses applying in that priority order. -/
theorem C2_classify_session_failure (e : SessionEnsureErrorT) :
    (e.error_code = some "TARGET_NOT_FOUND" →
      classify_session_failure e = "target-not-found") ∧
    (¬ e.error_code = some "TARGET_NOT_FOUND" →
      (e.error_code = some "CDP_UNAVAILABLE" ∨ e.status = some 503) →
      classify_session_failure e = "cdp-unavailable") ∧
    (¬ e.error_code = some "TARGET_NOT_FOUND" →
      ¬ (e.error_code = some "CDP_UNAVAILABLE" ∨ e.status = some 503) →
      (e.error_code = some "SESSION_ALREADY_RUNNING" ∨ e.status = some 409) →
      classify_session_failure e = "session-already-running") ∧
    (¬ e.error_code = some "TARGET_NOT_FOUND" →
      ¬ (e.error_code = some "CDP_UNAVAILABLE" ∨ e.status = some 503) →
      ¬ (e.error_code = some "SESSION_ALREADY_RUNNING" ∨ e.status = some 409) →
      e.status = some 422 →
      classify_session_failure e = "validation-error") ∧
    (¬ e.error_code = some "TARGET_NOT_FOUND" →
      ¬ (e.error_code = some "CDP_UNAVAILABLE" ∨ e.status = some 503) →
      ¬ (e.error_code = some "SESSION_ALREADY_RUNNING" ∨ e.status = some 409) →
      ¬ e.status = some 422 →
      classify_session_failure e = "session-ensure-failed") := by
  unfold classify_session_failure
  refine ⟨?_, ?_, ?_, ?_, ?_⟩ <;> intros <;> split_ifs <;> simp_all

/-- Witness for C2 at a concrete error: a 503 response without a
recognised error code classifies as `cdp-unavailable`. -/
theorem C2_classify_session_failure_witness :
    classify_session_failure ⟨some 503, some "X", "boom", none⟩ = "cdp-unavailable" :=
  (C2_classify_session_failure ⟨some 503, some "X", "boom", none⟩).2.1
    (by simp) (Or.inr rfl)

theorem all_imp {α} {p q : α → Bool} {l : List α} (h : l.all p = true)
    (hpq : ∀ a, p a = true → q a = true) : l.all q = true := by
  simp only [List.all_eq_true] at *
  exact fun a ha => hpq a (h a ha)

theorem contains_eq_false_of_all {l : List Char} {a : Char}
    (h : l.all (fun c => !(c = a)) = true) : l.contains a = false := by
  cases hc : l.contains a
  · rfl
  · exfalso
    have hmem : a ∈ l := List.elem_iff.mp hc
    have := (List.all_eq_true.mp h) a hmem
    simp at this

theorem contains_eq_true_of_mem {l : List Char} {a : Char} (h : a ∈ l) :
    l.contains a = true := List.elem_iff.mpr h

theorem afterLast_of_not_contains {sep : Char} {l : List Char}
    (h : l.contains sep = false) : afterLast sep l = l := by
  cases l with
  | nil => rfl
  | cons c rest =>
      have hfalse : ¬ ((c :: rest).contains sep = true) := by
        rw [h]
        exact Bool.false_ne_true
      rw [afterLast, if_neg hfalse]

theorem takeWhile_all_eq {p : Char → Bool} {l : List Char}
    (h : l.all p = true) : l.takeWhile p = l := by
  induction l with
  | nil => rfl
  | cons c rest ih =>
      simp only [List.all_cons, Bool.and_eq_true] at h
      rw [List.takeWhile_cons, if_pos h.1, ih h.2]

theorem takeWhile_append_all {p : Char → Bool} {l : List Char}
    (h : l.all p = true) (m : List Char) :
    (l ++ m).takeWhile p = l ++ m.takeWhile p := by
  induction l with
  | nil => rfl
  | cons c rest ih =>
      simp only [List.all_cons, Bool.and_eq_true] at h
      simp only [List.cons_append, List.takeWhile_cons, if_pos h.1, ih h.2]

theorem dropWhile_append_all {p : Char → Bool} {l : List Char}
    (h : l.all p = true) (m : List Char) :
    (l ++ m).dropWhile p = m.dropWhile p := by
  induction l with
  | nil => rfl
  | cons c rest ih =>
      simp only [List.all_cons, Bool.and_eq_true] at h
      simp only [List.cons_append, List.dropWhile_cons, if_pos h.1, ih h.2]

theorem splitSchemeAux_append {cs : List Char} (acc t : List Char)
    (h : cs.all isSchemeChar = true) :
    splitSchemeAux acc (cs ++ ':' :: t) = some (acc.reverse ++ cs, t) := by
  induction cs generalizing acc with
  | nil => simp [splitSchemeAux]
  | cons x xs ih =>
      simp only [List.all_cons, Bool.and_eq_true] at h
      have hxc : ¬ x = ':' := by
        intro he
        rw [he] at h
        exact absurd h.1 (by decide)
      rw [List.cons_append]
      rw [show splitSchemeAux acc (x :: (xs ++ ':' :: t)) =
            splitSchemeAux (x :: acc) (xs ++ ':' :: t) from by
        simp [splitSchemeAux, hxc, h.1]]
      rw [ih _ h.2]
      simp [List.reverse_cons, List.append_assoc]

theorem splitScheme_mk {c : Char} {cs : List Char} (t : List Char)
    (hc : c.isAlpha = true) (hcs : cs.all isSchemeChar = true) :
    splitScheme (c :: (cs ++ ':' :: t)) = (some ((c :: cs).map pyLowerChar), t) := by
  rw [splitScheme, if_pos hc, splitSchemeAux_append [c] t hcs]
  simp

theorem alpha_gt32 {x : Char} (h : x.isAlpha = true) : 32 < x.toNat := by
  simp [Char.isAlpha, Char.isUpper, Char.isLower] at h
  have h2 : 65 ≤ x.val.toNat ∨ 97 ≤ x.val.toNat := by
    rcases h with ⟨h1, _⟩ | ⟨h1, _⟩
    · exact Or.inl h1
    · exact Or.inr h1
  show 32 < x.val.toNat
  omega

theorem schemeChar_gt32 {x : Char} (h : isSchemeChar x = true) : 32 < x.toNat := by
  simp only [isSchemeChar, Bool.or_eq_true, decide_eq_true_eq] at h
  rcases h with (((ha | hd) | hp) | hm) | hdot
  · exact alpha_gt32 ha
  · simp [Char.isDigit] at hd
    have h2 : 48 ≤ x.val.toNat := hd.1
    show 32 < x.val.toNat
    omega
  · rw [hp]
    decide
  · rw [hm]
    decide
  · rw [hdot]
    decide

theorem clean_eq {l : List Char} (hall : l.all (fun c => 32 < c.toNat) = true) :
    (l.dropWhile isC0OrSpace).filter
      (fun c => ¬ (c = '\t' ∨ c = '\n' ∨ c = '\x0d')) = l := by
  have hdrop : l.dropWhile isC0OrSpace = l := by
    cases l with
    | nil => rfl
    | cons c rest =>
        have h32 : 32 < c.toNat := by
          have := List.all_eq_true.mp hall c (by simp)
          simpa using this
        have hc0 : ¬ (isC0OrSpace c = true) := by
          simp only [isC0OrSpace, decide_eq_true_eq]
          omega
        rw [List.dropWhile_cons, if_neg hc0]
  rw [hdrop]
  apply List.filter_eq_self.mpr
  intro a ha
  have h32 : 32 < a.toNat := by simpa using List.all_eq_true.mp hall a ha
  simp only [decide_eq_true_eq]
  push_neg
  refine ⟨?_, ?_, ?_⟩ <;> intro he <;> rw [he] at h32 <;> exact absurd h32 (by decide)

theorem plainNetlocChar_gt32 {x : Char} (h : plainNetlocChar x = true) :
    32 < x.toNat := by
  simp only [plainNetlocChar, Bool.and_eq_true, decide_eq_true_eq] at h
  exact h.1.1.1

theorem validHostChar_plain {x : Char} (h : validHostChar x = true) :
    plainNetlocChar x = true := by
  simp only [validHostChar, Bool.and_eq_true] at h
  simp only [plainNetlocChar, Bool.and_eq_true]
  exact ⟨⟨⟨h.1.1.1.1.1, h.1.1.1.1.2⟩, h.1.1.2⟩, h.1.2⟩

theorem validTail_all {r : List Char} (h : validTail r = true) :
    r.all (fun c => 32 < c.toNat) = true := by
  simp only [validTail, Bool.and_eq_true] at h
  exact h.2

theorem urlsplitParts_mk {c : Char} {cs : List Char} {n r : List Char}
    (hc : c.isAlpha = true) (hcs : cs.all isSchemeChar = true)
    (hn : n.all plainNetlocChar = true) (hr : validTail r = true) :
    urlsplitParts (mkUrl (c :: cs) n r) =
      some (some ((c :: cs).map pyLowerChar), n,
        ((r.takeWhile (fun x => x ≠ '#')).takeWhile (fun x => x ≠ '?'))) := by
  have hmem : ∀ x ∈ (c :: cs) ++ ':' :: '/' :: '/' :: (n ++ r), 32 < x.toNat := by
    intro x hx
    rcases List.mem_append.mp hx with h1 | h2
    · rcases List.mem_cons.mp h1 with rfl | hmem
      · exact alpha_gt32 hc
      · exact schemeChar_gt32 (List.all_eq_true.mp hcs x hmem)
    · rcases List.mem_cons.mp h2 with rfl | h3
      · decide
      · rcases List.mem_cons.mp h3 with rfl | h4
        · decide
        · rcases List.mem_cons.mp h4 with rfl | h5
          · decide
          · rcases List.mem_append.mp h5 with h6 | h7
            · exact plainNetlocChar_gt32 (List.all_eq_true.mp hn x h6)
            · simpa using List.all_eq_true.mp (validTail_all hr) x h7
  have hall : ((c :: cs) ++ ':' :: '/' :: '/' :: (n ++ r)).all
      (fun x => 32 < x.toNat) = true :=
    List.all_eq_true.mpr (fun x hx => by simpa using hmem x hx)
  have hnEnd : n.all (fun c => ¬ isNetlocEnd c) = true :=
    all_imp hn (fun a ha => by
      simp only [plainNetlocChar, Bool.and_eq_true, Bool.not_eq_true',
        decide_eq_true_eq] at ha ⊢
      simp [ha.1.1.2])
  have hrtake : r.takeWhile (fun c => ¬ isNetlocEnd c) = [] := by
    cases r with
    | nil => rfl
    | cons x t =>
        have hx : isNetlocEnd x = true := by
          simp only [validTail, Bool.and_eq_true] at hr
          exact hr.1
        rw [List.takeWhile_cons, if_neg (by simp [hx])]
  have hrdrop : r.dropWhile (fun c => ¬ isNetlocEnd c) = r := by
    cases r with
    | nil => rfl
    | cons x t =>
        have hx : isNetlocEnd x = true := by
          simp only [validTail, Bool.and_eq_true] at hr
          exact hr.1
        rw [List.dropWhile_cons, if_neg (by simp [hx])]
  have hbl : n.contains '[' = false :=
    contains_eq_false_of_all (all_imp hn (fun a ha => by
      simp only [plainNetlocChar, Bool.and_eq_true] at ha
      simp [ha.1.2]))
  have hbr : n.contains ']' = false :=
    contains_eq_false_of_all (all_imp hn (fun a ha => by
      simp only [plainNetlocChar, Bool.and_eq_true] at ha
      simp [ha.2]))
  simp only [urlsplitParts, mkUrl]
  simp only [clean_eq hall]
  simp only [List.cons_append]
  simp only [splitScheme_mk ('/' :: '/' :: (n ++ r)) hc hcs]
  simp only [takeWhile_append_all hnEnd, dropWhile_append_all hnEnd, hrtake,
    hrdrop, List.append_nil, hbl, hbr]
  simp

theorem digit_bounds {a : Char} (hd : a.isDigit = true) :
    48 ≤ a.val.toNat ∧ a.val.toNat ≤ 57 := by
  simp [Char.isDigit] at hd
  exact hd

theorem hostinfo_no_port {h : List Char} (hh : h.all validHostChar = true) :
    hostinfo h = (h, none) := by
  have h_at : h.contains '@' = false :=
    contains_eq_false_of_all (all_imp hh (fun a ha => by
      simp only [validHostChar, Bool.and_eq_true] at ha
      simp [ha.2]))
  have h_br : h.contains '[' = false :=
    contains_eq_false_of_all (all_imp hh (fun a ha => by
      simp only [validHostChar, Bool.and_eq_true] at ha
      simp [ha.1.1.2]))
  have h_col : h.contains ':' = false :=
    contains_eq_false_of_all (all_imp hh (fun a ha => by
      simp only [validHostChar, Bool.and_eq_true] at ha
      simp [ha.1.1.1.2]))
  have h_take : h.takeWhile (fun c => c ≠ ':') = h :=
    takeWhile_all_eq (all_imp hh (fun a ha => by
      simp only [validHostChar, Bool.and_eq_true, Bool.not_eq_true',
        decide_eq_false_iff_not] at ha
      simpa using ha.1.1.1.2))
  simp only [hostinfo, afterLast_of_not_contains h_at, h_br, h_at, h_col,
    h_take]
  simp

theorem hostinfo_port {h d : List Char} (hh : h.all validHostChar = true)
    (hd : d.all Char.isDigit = true) (hdne : ¬ d = []) :
    hostinfo (h ++ ':' :: d) = (h, some d) := by
  have hdnot : ∀ (x : Char), ∀ a ∈ d, ¬ (x.isDigit = true) → ¬ a = x := by
    intro x a ha hx heq
    rw [heq] at ha
    exact hx (List.all_eq_true.mp hd x ha)
  have h_at : (h ++ ':' :: d).contains '@' = false := by
    apply contains_eq_false_of_all
    simp only [List.all_append, List.all_cons, Bool.and_eq_true]
    refine ⟨all_imp hh (fun a ha => by
        simp only [validHostChar, Bool.and_eq_true] at ha
        simp [ha.2]), by decide, ?_⟩
    exact List.all_eq_true.mpr (fun a ha => by
      simpa using hdnot '@' a ha (by decide))
  have h_br : (h ++ ':' :: d).contains '[' = false := by
    apply contains_eq_false_of_all
    simp only [List.all_append, List.all_cons, Bool.and_eq_true]
    refine ⟨all_imp hh (fun a ha => by
        simp only [validHostChar, Bool.and_eq_true] at ha
        simp [ha.1.1.2]), by decide, ?_⟩
    exact List.all_eq_true.mpr (fun a ha => by
      simpa using hdnot '[' a ha (by decide))
  have h_hcol : h.all (fun c => c ≠ ':') = true :=
    all_imp hh (fun a ha => by
      simp only [validHostChar, Bool.and_eq_true, Bool.not_eq_true',
        decide_eq_false_iff_not] at ha
      simpa using ha.1.1.1.2)
  have h_take : (h ++ ':' :: d).takeWhile (fun c => c ≠ ':') = h := by
    rw [takeWhile_append_all h_hcol, List.takeWhile_cons, if_neg (by simp)]
    simp
  have h_drop : (h ++ ':' :: d).dropWhile (fun c => c ≠ ':') = ':' :: d := by
    rw [dropWhile_append_all h_hcol, List.dropWhile_cons, if_neg (by simp)]
  have h_col : (h ++ ':' :: d).contains ':' = true :=
    contains_eq_true_of_mem (List.mem_append_right _ (List.mem_cons_self _ _))
  simp only [hostinfo, afterLast_of_not_contains h_at, h_br, h_col, h_take,
    h_drop]
  simp [hdne]

theorem digit_plain {a : Char} (hd : a.isDigit = true) :
    plainNetlocChar a = true := by
  have hb := digit_bounds hd
  have hne : ∀ (x : Char), ¬ (48 ≤ x.val.toNat ∧ x.val.toNat ≤ 57) → ¬ a = x := by
    intro x hx heq
    rw [heq] at hb
    exact hx hb
  simp only [plainNetlocChar, isNetlocEnd, Bool.and_eq_true]
  refine ⟨⟨⟨?_, ?_⟩, ?_⟩, ?_⟩
  · simp only [decide_eq_true_eq]
    show 32 < a.val.toNat
    omega
  · simp [hne '/' (by decide), hne '?' (by decide), hne '#' (by decide)]
  · simp [hne '[' (by decide)]
  · simp [hne ']' (by decide)]

theorem parse_default_port {s h r : List Char} (hs : validScheme s = true)
    (hh : validHost h = true) (hr : validTail r = true) :
    parse_url_parts (mkUrl s (h ++ ':' :: defaultPortDigits s) r) =
      parse_url_parts (mkUrl s h r) := by
  obtain ⟨c, cs, rfl⟩ : ∃ c cs, s = c :: cs := by
    cases s with
    | nil => simp [validScheme] at hs
    | cons c cs => exact ⟨c, cs, rfl⟩
  simp only [validScheme, Bool.and_eq_true] at hs
  obtain ⟨hc, hcs⟩ := hs
  simp only [validHost, Bool.and_eq_true, Bool.not_eq_true'] at hh
  obtain ⟨hhne, hhAll⟩ := hh
  have hnPlain : h.all plainNetlocChar = true :=
    all_imp hhAll (fun a ha => validHostChar_plain ha)
  have hd : (defaultPortDigits (c :: cs)).all Char.isDigit = true := by
    unfold defaultPortDigits
    split <;> decide
  have hdne : ¬ defaultPortDigits (c :: cs) = [] := by
    unfold defaultPortDigits
    split <;> decide
  have hnPlain2 : (h ++ ':' :: defaultPortDigits (c :: cs)).all
      plainNetlocChar = true := by
    simp only [List.all_append, List.all_cons, Bool.and_eq_true]
    exact ⟨hnPlain, by decide, all_imp hd (fun a ha => digit_plain ha)⟩
  simp only [parse_url_parts, urlsplitParts_mk hc hcs hnPlain2 hr,
    urlsplitParts_mk hc hcs hnPlain hr]
  simp only [parseFromSplit, hostinfo_port hhAll hd hdne, hostinfo_no_port hhAll]
  by_cases hS : String.mk ((c :: cs).map pyLowerChar) = "https"
  · rw [show defaultPortDigits (c :: cs) = "443".data from by
      unfold defaultPortDigits
      rw [if_pos hS]]
    rw [show parsePort ("443".data) = some 443 from by decide]
    simp only [List.map_cons] at hS
    simp [hhne, hS]
  · rw [show defaultPortDigits (c :: cs) = "80".data from by
      unfold defaultPortDigits
      rw [if_neg hS]]
    rw [show parsePort ("80".data) = some 80 from by decide]
    simp only [List.map_cons] at hS
    simp [hhne, hS]

theorem parse_empty_path {s h : List Char} (hs : validScheme s = true)
    (hh : validHost h = true) :
    parse_url_parts (mkUrl s h []) = parse_url_parts (mkUrl s h ['/']) := by
  obtain ⟨c, cs, rfl⟩ : ∃ c cs, s = c :: cs := by
    cases s with
    | nil => simp [validScheme] at hs
    | cons c cs => exact ⟨c, cs, rfl⟩
  simp only [validScheme, Bool.and_eq_true] at hs
  obtain ⟨hc, hcs⟩ := hs
  simp only [validHost, Bool.and_eq_true, Bool.not_eq_true'] at hh
  obtain ⟨hhne, hhAll⟩ := hh
  have hnPlain : h.all plainNetlocChar = true :=
    all_imp hhAll (fun a ha => validHostChar_plain ha)
  simp only [parse_url_parts,
    urlsplitParts_mk hc hcs hnPlain (show validTail [] = true from by decide),
    urlsplitParts_mk hc hcs hnPlain (show validTail ['/'] = true from by decide)]
  simp only [show (([] : List Char).takeWhile (fun x => x ≠ '#')).takeWhile
      (fun x => x ≠ '?') = [] from rfl,
    show ((['/'] : List Char).takeWhile (fun x => x ≠ '#')).takeWhile
      (fun x => x ≠ '?') = ['/'] from by decide]
  simp only [parseFromSplit, hostinfo_no_port hhAll]
  simp [hhne]

/-- C9: `urls_match` under `origin` / `origin-path` is invariant under
spelling out the scheme-default port (`443` for `https` after
lower-casing and `80` otherwise, hence `80` for `http`) and under
replacing an empty path with `/`: for every well-formed scheme, host and
tail, `parse_url_parts` and hence `urls_match` (on either side, under any
non-`exact` strategy) give the same result with and without the default
port spelled out, and with an empty path as with `/`; the quoted examples
hold; the non-`exact` strategies compare only the result of
`parse_url_parts`, so any two URLs with equal parses are interchangeable
on either side; and for any strategy other than `exact`, `origin-path`
and `origin` the match is `false`. -/
theorem C9_urls_match_normalization :
    (urls_match "http://host/a" "http://host:80/a" "origin-path" = true) ∧
    (urls_match "http://host" "http://host:80/" "origin-path" = true) ∧
    (urls_match "https://host/a" "https://host:443/a" "origin-path" = true) ∧
    (urls_match "https://host" "https://host:443/" "origin" = true) ∧
    (∀ s h r, validScheme s = true → validHost h = true → validTail r = true →
      parse_url_parts (mkUrl s (h ++ ':' :: defaultPortDigits s) r) =
        parse_url_parts (mkUrl s h r)) ∧
    (∀ s h, validScheme s = true → validHost h = true →
      parse_url_parts (mkUrl s h []) = parse_url_parts (mkUrl s h ['/'])) ∧
    (∀ s h r u strat, validScheme s = true → validHost h = true →
      validTail r = true → ¬ strat = "exact" →
      (urls_match (mkUrl s (h ++ ':' :: defaultPortDigits s) r) u strat =
        urls_match (mkUrl s h r) u strat) ∧
      (urls_match u (mkUrl s (h ++ ':' :: defaultPortDigits s) r) strat =
        urls_match u (mkUrl s h r) strat)) ∧
    (∀ s h u strat, validScheme s = true → validHost h = true →
      ¬ strat = "exact" →
      (urls_match (mkUrl s h []) u strat =
        urls_match (mkUrl s h ['/']) u strat) ∧
      (urls_match u (mkUrl s h []) strat =
        urls_match u (mkUrl s h ['/']) strat)) ∧
    (∀ c c' r s, ¬ s = "exact" → parse_url_parts c = parse_url_parts c' →
      urls_match c r s = urls_match c' r s) ∧
    (∀ c r r' s, ¬ s = "exact" → parse_url_parts r = parse_url_parts r' →
      urls_match c r s = urls_match c r' s) ∧
    (∀ c r s, ¬ s = "exact" → ¬ s = "origin-path" → ¬ s = "origin" →
      urls_match c r s = false) := by
  have hcand : ∀ c c' r s, ¬ s = "exact" →
      parse_url_parts c = parse_url_parts c' →
      urls_match c r s = urls_match c' r s := by
    intro c c' r s hs hp
    unfold urls_match
    rw [if_neg hs, if_neg hs, hp]
  have hreq : ∀ c r r' s, ¬ s = "exact" →
      parse_url_parts r = parse_url_parts r' →
      urls_match c r s = urls_match c r' s := by
    intro c r r' s hs hp
    unfold urls_match
    rw [if_neg hs, if_neg hs, hp]
  refine ⟨by decide, by decide, by decide, by decide,
    fun s h r hs hh hr => parse_default_port hs hh hr,
    fun s h hs hh => parse_empty_path hs hh,
    fun s h r u strat hs hh hr hst =>
      ⟨hcand _ _ u strat hst (parse_default_port hs hh hr),
       hreq u _ _ strat hst (parse_default_port hs hh hr)⟩,
    fun s h u strat hs hh hst =>
      ⟨hcand _ _ u strat hst (parse_empty_path hs hh),
       hreq u _ _ strat hst (parse_empty_path hs hh)⟩,
    hcand, hreq, ?_⟩
  intro c r s h1 h2 h3
  unfold urls_match
  rw [if_neg h1]
  cases parse_url_parts c <;> cases parse_url_parts r <;> simp [h2, h3]

/-- Witness for C9: the universal default-port clause applied at the
concrete URL `http://Host7:80/a?q=1` (its validity hypotheses discharged
by computation), and the unknown-strategy clause applied at a concrete
strategy. -/
theorem C9_urls_match_normalization_witness :
    (validScheme "http".data = true ∧ validHost "Host7".data = true ∧
      validTail "/a?q=1".data = true ∧
      parse_url_parts (mkUrl "http".data ("Host7".data ++ ':' ::
        defaultPortDigits "http".data) "/a?q=1".data) =
        parse_url_parts (mkUrl "http".data "Host7".data "/a?q=1".data)) ∧
    urls_match "other" "x" "fuzzy" = false :=
  ⟨⟨by decide, by decide, by decide,
    C9_urls_match_normalization.2.2.2.2.1 "http".data "Host7".data "/a?q=1".data
      (by decide) (by decide) (by decide)⟩,
   C9_urls_match_normalization.2.2.2.2.2.2.2.2.2.2 "other" "x" "fuzzy"
      (by decide) (by decide) (by decide)⟩

/-- C3: on a successful tab listing, `resolve_exact_tab_url_via_cdp`
returns `ok` exactly when precisely one page target matches the requested
URL under the given strategy, carrying that target's URL and id; zero
matches yield `TARGET_NOT_FOUND` and more than one yields
`AMBIGUOUS_TARGET` with no resolved URL or target id — it never picks one
of several matches. -/
theorem C3_resolve_exact_tab_url (st : Option Nat) (body : List JVal)
    (tab_url strategy : String) :
    ((resolve_exact_tab_url_via_cdp (.ok st body) tab_url strategy).ok = true ↔
      ((pageTargets body).filter (fun t => urls_match t.2 tab_url strategy)).length = 1) ∧
    (∀ t, (pageTargets body).filter (fun t => urls_match t.2 tab_url strategy) = [t] →
      (resolve_exact_tab_url_via_cdp (.ok st body) tab_url strategy).resolvedTabUrl = some t.2 ∧
      (resolve_exact_tab_url_via_cdp (.ok st body) tab_url strategy).targetId = t.1) ∧
    (((pageTargets body).filter (fun t => urls_match t.2 tab_url strategy)).length = 0 →
      (resolve_exact_tab_url_via_cdp (.ok st body) tab_url strategy).ok = false ∧
      (resolve_exact_tab_url_via_cdp (.ok st body) tab_url strategy).errorCode =
        some "TARGET_NOT_FOUND") ∧
    (((pageTargets body).filter (fun t => urls_match t.2 tab_url strategy)).length > 1 →
      (resolve_exact_tab_url_via_cdp (.ok st body) tab_url strategy).ok = false ∧
      (resolve_exact_tab_url_via_cdp (.ok st body) tab_url strategy).errorCode =
        some "AMBIGUOUS_TARGET" ∧
      (resolve_exact_tab_url_via_cdp (.ok st body) tab_url strategy).resolvedTabUrl = none ∧
      (resolve_exact_tab_url_via_cdp (.ok st body) tab_url strategy).targetId = none) := by
  unfold resolve_exact_tab_url_via_cdp
  cases hM : (pageTargets body).filter (fun t => urls_match t.2 tab_url strategy) with
  | nil => simp [hM]
  | cons a tl =>
      cases tl with
      | nil => simp [hM]
      | cons b tl2 => simp [hM]

/-- Witness for C3: a concrete two-tab listing where both page targets
match the requested origin+path is reported as ambiguous. -/
theorem C3_resolve_exact_tab_url_witness :
    (resolve_exact_tab_url_via_cdp
      (.ok (some 200)
        [.jobj [("id", .jstr "t1"), ("type", .jstr "page"),
                ("url", .jstr "http://127.0.0.1:5173/app?x=1")],
         .jobj [("id", .jstr "t2"), ("type", .jstr "page"),
                ("url", .jstr "http://127.0.0.1:5173/app#f")]])
      "http://127.0.0.1:5173/app" "origin-path").errorCode =
        some "AMBIGUOUS_TARGET" :=
  ((C3_resolve_exact_tab_url (some 200)
      [.jobj [("id", .jstr "t1"), ("type", .jstr "page"),
              ("url", .jstr "http://127.0.0.1:5173/app?x=1")],
       .jobj [("id", .jstr "t2"), ("type", .jstr "page"),
              ("url", .jstr "http://127.0.0.1:5173/app#f")]]
      "http://127.0.0.1:5173/app" "origin-path").2.2.2 (by decide)).2.1

/-- Reading the key just set. -/
theorem jget_jset_same (fields : List (String × JVal)) (k : String) (v : JVal) :
    jget (jset fields k v) k = some v := by
  simp [jget, jset]

/-- `jget` ignores entries removed by a filter on a different key. -/
theorem jget_filter_ne (fields : List (String × JVal)) (k k' : String)
    (h : ¬ k' = k) :
    jget (fields.filter (fun kv => ¬ kv.1 = k)) k' = jget fields k' := by
  induction fields with
  | nil => rfl
  | cons kv rest ih =>
      obtain ⟨a, b⟩ := kv
      rw [List.filter_cons]
      by_cases hk : a = k
      · have hak : ¬ a = k' := fun he => h (he ▸ hk)
        rw [if_neg (by simp [hk]), ih]
        simp [jget, hak]
      · rw [if_pos (by simp [hk])]
        by_cases ha : a = k'
        · simp [jget, ha]
        · simp only [jget, if_neg ha]
          simpa using ih

/-- Reading another key is unaffected by `jset`. -/
theorem jget_jset_other (fields : List (String × JVal)) (k k' : String) (v : JVal)
    (h : ¬ k' = k) : jget (jset fields k v) k' = jget fields k' := by
  have hk : ¬ k = k' := fun he => h he.symm
  unfold jset
  rw [show jget ((k, v) :: fields.filter (fun kv => ¬ kv.1 = k)) k' =
      jget (fields.filter (fun kv => ¬ kv.1 = k)) k' by simp [jget, hk]]
  exact jget_filter_ne fields k k' h

/-- An invalid `timeoutMs` field: absent, not a Python integer, or not
strictly positive. -/
def timeoutInvalid (step : List (String × JVal)) : Prop :=
  match jget step "timeoutMs" with
  | none => True
  | some v => ¬ (isPyInt v = true ∧ pyIntVal v > 0)

/-- With an invalid `timeoutMs` the resolved timeout is the default. -/
theorem stepTimeout_invalid (step : List (String × JVal)) (d : Int)
    (ht : timeoutInvalid step) : stepTimeout step d = .jint d := by
  unfold stepTimeout
  unfold timeoutInvalid at ht
  cases h : jget step "timeoutMs" with
  | none => simp [h]
  | some v =>
      rw [h] at ht
      simp only [h]
      exact if_neg ht

/-- Replacing `timeoutMs` by an explicit integer resolves to it when
positive, and to the (equal) default otherwise. -/
theorem stepTimeout_jset (step : List (String × JVal)) (d : Int) :
    stepTimeout (jset step "timeoutMs" (.jint d)) d = .jint d := by
  unfold stepTimeout
  rw [jget_jset_same]
  show (if isPyInt (JVal.jint d) = true ∧ pyIntVal (JVal.jint d) > 0 then JVal.jint d
    else JVal.jint d) = JVal.jint d
  split <;> rfl

/-- The list of supported scenario verbs. -/
def supportedVerbs : List String :=
  ["reload", "wait", "navigate", "evaluate", "click", "type", "snapshot",
   "webgl-diagnostics"]

set_option maxHeartbeats 1600000 in
/-- C10: for a step whose `timeoutMs` is absent, not an integer, or not
strictly positive, `command_payload_from_step` behaves exactly as if the
caller's default timeout had been written in the step (so the timeout
never causes an error), and when it succeeds the payload's `timeoutMs` —
or, for a `wait` step with an equally invalid `ms`, the payload's `ms` —
is the default timeout. -/
theorem C10_command_payload_default_timeout (step : List (String × JVal))
    (d : Int) (ht : timeoutInvalid step) :
    (command_payload_from_step step d =
      command_payload_from_step (jset step "timeoutMs" (.jint d)) d) ∧
    (∀ c p, command_payload_from_step step d = .ok (c, p) → ¬ c = "wait" →
      jget p "timeoutMs" = some (.jint d)) ∧
    (∀ c p, command_payload_from_step step d = .ok (c, p) → c = "wait" →
      (∀ m, jget step "ms" = some m → ¬ (isPyInt m = true ∧ pyIntVal m > 0) →
        jget p "ms" = some (.jint d)) ∧
      (jget step "ms" = none → jget p "ms" = some (.jint d))) := by
  have hdo : jget (jset step "timeoutMs" (.jint d)) "do" = jget step "do" :=
    jget_jset_other _ _ _ _ (by decide)
  have hms : jget (jset step "timeoutMs" (.jint d)) "ms" = jget step "ms" :=
    jget_jset_other _ _ _ _ (by decide)
  have hurl : jget (jset step "timeoutMs" (.jint d)) "url" = jget step "url" :=
    jget_jset_other _ _ _ _ (by decide)
  have hexpr : jget (jset step "timeoutMs" (.jint d)) "expression" =
      jget step "expression" := jget_jset_other _ _ _ _ (by decide)
  have hap : jget (jset step "timeoutMs" (.jint d)) "awaitPromise" =
      jget step "awaitPromise" := jget_jset_other _ _ _ _ (by decide)
  have hrbv : jget (jset step "timeoutMs" (.jint d)) "returnByValue" =
      jget step "returnByValue" := jget_jset_other _ _ _ _ (by decide)
  have hsel : jget (jset step "timeoutMs" (.jint d)) "selector" =
      jget step "selector" := jget_jset_other _ _ _ _ (by decide)
  have htext : jget (jset step "timeoutMs" (.jint d)) "text" = jget step "text" :=
    jget_jset_other _ _ _ _ (by decide)
  have hclear : jget (jset step "timeoutMs" (.jint d)) "clear" = jget step "clear" :=
    jget_jset_other _ _ _ _ (by decide)
  have hfp : jget (jset step "timeoutMs" (.jint d)) "fullPage" =
      jget step "fullPage" := jget_jset_other _ _ _ _ (by decide)
  have hti := stepTimeout_invalid step d ht
  have htj := stepTimeout_jset step d
  refine ⟨?_, ?_, ?_⟩
  · simp only [command_payload_from_step, hdo, hms, hurl, hexpr, hap, hrbv,
      hsel, htext, hclear, hfp, hti, htj]
  · intro c p hres hc
    simp only [command_payload_from_step, hti] at hres
    split at hres
    all_goals try (exact Except.noConfusion hres)
    rename_i cmdv heq
    split_ifs at hres with hemp h1 h2 h3 h4 h5 h6 h7 h8
    all_goals try (split at hres)
    all_goals try (exact Except.noConfusion hres)
    all_goals try (split_ifs at hres)
    all_goals try (exact Except.noConfusion hres)
    all_goals try (split at hres)
    all_goals try (exact Except.noConfusion hres)
    all_goals
      (simp only [Except.ok.injEq, Prod.mk.injEq] at hres
       obtain ⟨hcmd, hp⟩ := hres
       first
         | (subst hp; simp [jget]; done)
         | (exact absurd (hcmd.symm.trans h2) hc))
  · intro c p hres hcw
    simp only [command_payload_from_step, hti] at hres
    split at hres
    all_goals try (exact Except.noConfusion hres)
    rename_i cmdv heq
    by_cases hw : cmdv = "wait"
    · subst hw
      rw [if_neg (by decide : ¬("wait" : String) = ""),
        if_neg (by decide : ¬("wait" : String) = "reload"), if_pos rfl] at hres
      simp only [Except.ok.injEq, Prod.mk.injEq] at hres
      obtain ⟨hcmd, hp⟩ := hres
      constructor
      · intro m hm hmv
        subst hp
        simp only [jget, hm]
        rw [if_pos trivial, if_neg hmv]
      · intro hm
        subst hp
        simp only [jget, hm]
        rw [if_pos trivial]
    · exfalso
      split_ifs at hres with hemp h1 h2 h3 h4 h5 h6 h7 h8
      all_goals try (split at hres)
      all_goals try (exact Except.noConfusion hres)
      all_goals try (split_ifs at hres)
      all_goals try (exact Except.noConfusion hres)
      all_goals try (split at hres)
      all_goals try (exact Except.noConfusion hres)
      all_goals
        (simp only [Except.ok.injEq, Prod.mk.injEq] at hres
         obtain ⟨hcmd, hp⟩ := hres
         exact hw (hcmd.trans hcw))

/-- Witness for C10: a `reload` step whose `timeoutMs` is a string is
treated exactly like one carrying the default timeout. -/
theorem C10_command_payload_default_timeout_witness :
    command_payload_from_step
        [("do", JVal.jstr "reload"), ("timeoutMs", JVal.jstr "soon")] 15000 =
      command_payload_from_step
        (jset [("do", JVal.jstr "reload"), ("timeoutMs", JVal.jstr "soon")]
          "timeoutMs" (JVal.jint 15000)) 15000 :=
  (C10_command_payload_default_timeout
    [("do", JVal.jstr "reload"), ("timeoutMs", JVal.jstr "soon")] 15000
    (by unfold timeoutInvalid; simp [jget, isPyInt])).1

/-- C7: when a `navigate` command fails with the stale-transport signature
(with navigate fallback enabled), exactly one `evaluate` fallback command
performing a location assignment is issued next and recorded with
`fallbackFor: navigate`, and the scenario is marked failed by this step
only if that fallback command itself fails. -/
theorem C7_navigate_fallback (orc : Nat → CoreOutcome) (tmo : Int)
    (step : List (String × JVal)) (payload : List (String × JVal))
    (rest : List JVal) (k : Nat)
    (hpay : command_payload_from_step step tmo = .ok ("navigate", payload))
    (hcr : (orc k).okB = false)
    (hretry : should_retry_navigate_with_evaluate (orc k) = true) :
    runSteps orc tmo true (.jobj step :: rest) k =
      (if (orc (k + 1)).okB then
        { recs := mkCommandRecord "navigate" payload (orc k) none ::
            mkCommandRecord "evaluate"
              (navigateFallbackPayload (payloadUrl payload) tmo) (orc (k + 1))
              (some "navigate") ::
            (runSteps orc tmo true rest (k + 2)).recs,
          errors := (runSteps orc tmo true rest (k + 2)).errors,
          nextAction := (runSteps orc tmo true rest (k + 2)).nextAction,
          failed := (runSteps orc tmo true rest (k + 2)).failed,
          k := (runSteps orc tmo true rest (k + 2)).k }
      else
        { recs := [mkCommandRecord "navigate" payload (orc k) none,
            mkCommandRecord "evaluate"
              (navigateFallbackPayload (payloadUrl payload) tmo) (orc (k + 1))
              (some "navigate")],
          errors := [fallbackFailMsg (orc (k + 1))],
          nextAction := some (build_failure_next_action "scenario-command"
            (orc (k + 1)).errorCodeO (some (naErrorMessage (orc (k + 1))))
            (orc (k + 1)).snippetO none),
          failed := true,
          k := k + 2 }) ∧
    jget (navigateFallbackPayload (payloadUrl payload) tmo) "expression" =
      some (.jstr (build_navigate_fallback_expression (payloadUrl payload))) := by
  constructor
  · simp only [runSteps, hpay]
    rw [if_neg (by rw [hcr]; exact Bool.false_ne_true)]
    rw [if_pos (by simp [hretry])]
  · simp [navigateFallbackPayload, jget]

/-- Witness for C7 at a concrete failing navigate and failing fallback. -/
theorem C7_navigate_fallback_witness :
    (runSteps
      (fun k => if k = 0 then
          .failure (some 422) "client.Page.once is not a function" (some "VALIDATION_ERROR")
            (some "client.Page.once is not a function") none none
        else .failure (some 500) "boom" none none none none)
      15000 true [.jobj [("do", .jstr "navigate"), ("url", .jstr "http://h/a")]] 0).failed =
      true :=
  by
    rw [(C7_navigate_fallback
      (fun k => if k = 0 then
          .failure (some 422) "client.Page.once is not a function" (some "VALIDATION_ERROR")
            (some "client.Page.once is not a function") none none
        else .failure (some 500) "boom" none none none none)
      15000 [("do", .jstr "navigate"), ("url", .jstr "http://h/a")]
      [("url", .jstr "http://h/a"), ("waitUntil", .jstr "load"),
        ("timeoutMs", .jint 15000)]
      [] 0 rfl (by decide) (by decide)).1]
    decide

set_option maxHeartbeats 1600000 in
/-- C6 (amended): when a scenario's strict compare-reference attempt fails
with `IMAGE_DIMENSION_MISMATCH` and auto-resize is enabled, the recorded
`compareReference` holds exactly 2 attempts, with dimension policies
`strict` then `resize-reference-to-actual`, and `fallbackApplied` is true
whenever that second attempt was made — regardless of whether it
succeeded; the scenario is marked ok exactly when the second attempt
succeeds. -/
theorem C6_compare_dimension_retry (orc : Nat → CoreOutcome) (tmo : Int)
    (ri : String) (nav : Bool) (sc : Scene) (k : Nat) (ref : String)
    (sst : Option Nat) (res : List (String × JVal)) (p : String)
    (href : sc.referenceImagePath = some ref)
    (hrs : ¬ pyStrip ref = "")
    (hok : (runSteps orc tmo nav sc.commands k).failed = false)
    (hsnap : orc (runSteps orc tmo nav sc.commands k).k = .success sst res)
    (hpath : jget res "path" = some (.jstr p))
    (hp : ¬ p = "")
    (hc1 : (orc ((runSteps orc tmo nav sc.commands k).k + 1)).okB = false)
    (hc1c : (orc ((runSteps orc tmo nav sc.commands k).k + 1)).errorCodeO =
      some "IMAGE_DIMENSION_MISMATCH") :
    ((runScene orc tmo true ri nav sc k).1.compareReference.map
        (fun c => c.attempts.length) = some 2) ∧
    ((runScene orc tmo true ri nav sc k).1.compareReference.map
        (fun c => c.attempts.map (fun a => jget a.payload "dimensionPolicy")) =
      some [some (.jstr "strict"), some (.jstr "resize-reference-to-actual")]) ∧
    ((runScene orc tmo true ri nav sc k).1.compareReference.map
        (fun c => c.fallbackApplied) = some true) ∧
    ((runScene orc tmo true ri nav sc k).1.ok =
      (orc ((runSteps orc tmo nav sc.commands k).k + 2)).okB) := by
  simp only [runScene]
  rw [if_neg (by rw [hok]; exact Bool.false_ne_true)]
  rw [hsnap]
  rw [if_neg (by simp [CoreOutcome.okB])]
  rw [show snapshotPathOf (CoreOutcome.success sst res) = some p by
    simp [snapshotPathOf, CoreOutcome.resultO, hpath]]
  split
  next heqp => exact absurd heqp (by simp)
  next sp heqp =>
    obtain rfl : p = sp := by injection heqp
    rw [href]
    split
    next rp heqr =>
      obtain rfl : ref = rp := by injection heqr
      rw [if_neg (by simp [hrs, hp])]
      rw [if_pos (show ¬ (orc ((runSteps orc tmo nav sc.commands k).k + 1)).okB = true ∧
          (orc ((runSteps orc tmo nav sc.commands k).k + 1)).errorCodeO =
            some "IMAGE_DIMENSION_MISMATCH" ∧ True from
        ⟨by simp [hc1], hc1c, trivial⟩)]
      by_cases hfin : (orc ((runSteps orc tmo nav sc.commands k).k + 2)).okB
      · rw [if_pos hfin]
        refine ⟨?_, ?_, ?_, ?_⟩ <;>
          simp [mkCompareAttempt, comparePayload, jget, hfin]
      · rw [if_neg hfin]
        refine ⟨?_, ?_, ?_, ?_⟩ <;>
          simp [mkCompareAttempt, comparePayload, jget, hfin]
    next heqr => exact absurd heqr (by simp)

/-- Witness for C6 at a concrete run where the resize attempt succeeds. -/
theorem C6_compare_dimension_retry_witness :
    ((runScene
        (fun k => if k = 0 then .success (some 200) [("path", .jstr "snap.png")]
          else if k = 1 then
            .failure (some 422) "Image dimensions must match for comparison"
              (some "IMAGE_DIMENSION_MISMATCH") none none none
          else .success (some 200) [("metrics", .jobj [])])
        15000 true "bilinear" true ⟨"s1", [], some "ref.png", true⟩ 0).1.compareReference.map
      (fun c => c.fallbackApplied)) = some true :=
  (C6_compare_dimension_retry
    (fun k => if k = 0 then .success (some 200) [("path", .jstr "snap.png")]
      else if k = 1 then
        .failure (some 422) "Image dimensions must match for comparison"
          (some "IMAGE_DIMENSION_MISMATCH") none none none
      else .success (some 200) [("metrics", .jobj [])])
    15000 "bilinear" true ⟨"s1", [], some "ref.png", true⟩ 0 "ref.png"
    (some 200) [("path", .jstr "snap.png")] "snap.png"
    rfl (by decide) rfl rfl rfl (by decide) (by decide) (by decide)).2.2.1

/-- Counterexample to C6 as stated: with both compare attempts failing,
`fallbackApplied` is still `true` — it records that the fallback attempt
was made, not that it succeeded. -/
theorem C6_compare_dimension_retry_counterexample :
    (((runScene
        (fun k => if k = 0 then .success (some 200) [("path", .jstr "snap.png")]
          else .failure (some 422) "Image dimensions must match for comparison"
            (some "IMAGE_DIMENSION_MISMATCH") none none none)
        15000 true "bilinear" true ⟨"s1", [], some "ref.png", true⟩ 0).1.compareReference.map
      (fun c => c.fallbackApplied)) = some true) ∧
    (((runScene
        (fun k => if k = 0 then .success (some 200) [("path", .jstr "snap.png")]
          else .failure (some 422) "Image dimensions must match for comparison"
            (some "IMAGE_DIMENSION_MISMATCH") none none none)
        15000 true "bilinear" true ⟨"s1", [], some "ref.png", true⟩ 0).1.compareReference.map
      (fun c => c.attempts.map (fun a => a.ok))) = some [false, false]) ∧
    ((runScene
        (fun k => if k = 0 then .success (some 200) [("path", .jstr "snap.png")]
          else .failure (some 422) "Image dimensions must match for comparison"
            (some "IMAGE_DIMENSION_MISMATCH") none none none)
        15000 true "bilinear" true ⟨"s1", [], some "ref.png", true⟩ 0).1.ok = false) := by
  refine ⟨?_, ?_, ?_⟩ <;> decide

/-- C8 (amended): when at least one scenario has computed screenshot
metrics, every computed screenshot non-black ratio is at least 0.01, no
runtime error text contains render keywords, and — additionally — no
scenario is a framebuffer/screenshot mismatch (framebuffer black while the
screenshot is not), the verdict is `no-black-screen-evidence` with
confidence `high`. -/
theorem C8_black_screen_verdict (metrics : List MetricsE)
    (runtime : List VRuntime)
    (hne : ¬ metrics = [])
    (hall : ∀ m ∈ metrics, ∀ r, m.imageNonBlack = some r → (1 : ℚ)/100 ≤ r)
    (hsome : ∀ m ∈ metrics, ¬ m.imageNonBlack = none)
    (herr : ∀ e ∈ runtime, hasRenderErrorText e.errors = false)
    (hmm : framebufferMetricMismatches metrics = []) :
    (runVerdict metrics runtime).status = "no-black-screen-evidence" ∧
    (runVerdict metrics runtime).confidence = "high" := by
  have hsb : metrics.filterMap (fun m =>
      m.imageNonBlack.bind (fun r => if r < 1/100 then some m.name else none)) = [] := by
    rw [List.filterMap_eq_nil]
    intro m hm
    cases h : m.imageNonBlack with
    | none => rfl
    | some r =>
        have hge := hall m hm r h
        show (if r < 1/100 then some m.name else none) = none
        rw [if_neg (not_lt.2 hge)]
  have hre : runtime.filterMap (fun e =>
      if hasRenderErrorText e.errors then some e.name else none) = [] := by
    rw [List.filterMap_eq_nil]
    intro e he
    simp [herr e he]
  have hsnb : ¬ metrics.filterMap (fun m =>
      m.imageNonBlack.bind (fun r => if r < 1/100 then none else some m.name)) = [] := by
    cases hm : metrics with
    | nil => exact absurd hm hne
    | cons m0 rest =>
        have hm0 : m0 ∈ metrics := by rw [hm]; exact List.mem_cons_self m0 rest
        cases h : m0.imageNonBlack with
        | none => exact absurd h (hsome m0 hm0)
        | some r =>
            have hge := hall m0 hm0 r h
            rw [List.filterMap_cons]
            simp only [h, Option.some_bind, if_neg (not_lt.2 hge)]
            simp
  simp only [runVerdict, build_black_screen_verdict]
  rw [hsb, hre, hmm]
  rw [if_neg (by simp), if_neg (by simp), if_neg (by simp)]
  rw [if_pos (show ¬ (metrics.filterMap (fun m =>
      m.imageNonBlack.bind (fun r => if r < 1/100 then none else some m.name))).isEmpty from by
    rw [List.isEmpty_iff]
    exact hsnb)]
  exact ⟨rfl, rfl⟩

/-- Witness for C8 at one non-black scenario with no framebuffer sample. -/
theorem C8_black_screen_verdict_witness :
    (runVerdict [⟨"s1", some 1, none⟩] [⟨"s1", []⟩]).status =
      "no-black-screen-evidence" ∧
    (runVerdict [⟨"s1", some 1, none⟩] [⟨"s1", []⟩]).confidence = "high" :=
  C8_black_screen_verdict [⟨"s1", some 1, none⟩] [⟨"s1", []⟩]
    (by decide)
    (by
      intro m hm r hr
      simp only [List.mem_singleton] at hm
      rw [hm] at hr
      simp only [Option.some.injEq] at hr
      rw [← hr]
      norm_num)
    (by decide) (by decide) (by decide)

/-- Counterexample to C8 as stated: a run whose only scenario has a
non-black screenshot (ratio 1 ≥ 0.01) and no render-error text, but whose
framebuffer reports black, yields the mismatch status with confidence
`medium`, not `no-black-screen-evidence` with `high`. -/
theorem C8_black_screen_verdict_counterexample :
    ((⟨"s1", some 1, some 0⟩ : MetricsE).imageNonBlack = some 1 ∧
      (1 : ℚ)/100 ≤ 1 ∧ hasRenderErrorText [] = false) ∧
    (runVerdict [⟨"s1", some 1, some 0⟩] [⟨"s1", []⟩]).status =
      "non-black-screenshot-with-framebuffer-black" ∧
    (runVerdict [⟨"s1", some 1, some 0⟩] [⟨"s1", []⟩]).confidence = "medium" := by
  have hsb : ([⟨"s1", some 1, some 0⟩] : List MetricsE).filterMap (fun m =>
      m.imageNonBlack.bind (fun r => if r < 1/100 then some m.name else none)) = [] := by
    norm_num
  have hre : ([⟨"s1", []⟩] : List VRuntime).filterMap (fun e =>
      if hasRenderErrorText e.errors then some e.name else none) = [] := by
    have : hasRenderErrorText [] = false := by decide
    simp [this]
  have hfm : framebufferMetricMismatches [⟨"s1", some 1, some 0⟩] = ["s1"] := by
    simp only [framebufferMetricMismatches, List.filterMap]
    norm_num
  refine ⟨⟨rfl, by norm_num, by decide⟩, ?_⟩
  simp only [runVerdict, build_black_screen_verdict, hsb, hre, hfm]
  rw [if_neg (by simp), if_neg (by simp), if_pos (by simp)]
  exact ⟨rfl, rfl⟩

end TerminalProbe